import Mathlib

/-!
Verification of the conversation-simulation and structured-extraction pipeline
of the `llm-conv-summarize` repository.

The Python sources are shallowly embedded:

* `dict` values that cross pipeline boundaries become `JVal` / `Report`
  (association lists keep Python's insertion order);
* every `genai` model invocation becomes one `GenCall` record handed to an
  oracle `Client`; the call trace is returned alongside the report so that
  observational claims (number of calls, fallback order) can be stated;
* Python exceptions are modelled with `Except String`; each `try/except`
  block of the source becomes an explicit `match`;
* stdlib collaborators (`json.loads`, `json.dumps`,
  `datetime.fromisoformat(...).strftime(...)`, `datetime.now().isoformat()`)
  are oracle parameters of the embedded functions.
-/

/-- JSON-like value, the model of the Python `dict`/`list`/`str` data that
crosses the pipeline boundaries. -/
inductive JVal where
  | str : String → JVal
  | num : Int → JVal
  | bool : Bool → JVal
  | null : JVal
  | arr : List JVal → JVal
  | obj : List (String × JVal) → JVal

/-- A structured report: a Python dict in insertion order. -/
abbrev Report := List (String × JVal)

/-- The keys of a report, in insertion order. -/
def keysOf (r : Report) : List String := r.map Prod.fst

/-- Dictionary lookup (`d[k]` read access / `k in d`). -/
def lookupKey (r : Report) (k : String) : Option JVal :=
  match r with
  | [] => none
  | (k', v) :: rest => if k' = k then some v else lookupKey rest k

/-- Python dict assignment `d[k] = v`: replaces the value in place if the key
exists, otherwise appends the new key at the end. -/
def updJ (r : Report) (k : String) (v : JVal) : Report :=
  match r with
  | [] => [(k, v)]
  | (k', v') :: rest => if k' = k then (k, v) :: rest else (k', v') :: updJ rest k v

/-- Same as `updJ` for string-valued dicts (the profile section dict). -/
def updStr (r : List (String × String)) (k v : String) : List (String × String) :=
  match r with
  | [] => [(k, v)]
  | (k', v') :: rest => if k' = k then (k, v) :: rest else (k', v') :: updStr rest k v

/-- One `generate_content` invocation: model name, prompt contents and the
optional response schema passed in the generation config. -/
structure GenCall where
  model : String
  contents : String
  schema : Option JVal

/-- Outcome of a model invocation: the response text, or a raised exception
(carrying `str(e)`). -/
inductive GenResult where
  | ok : String → GenResult
  | exn : String → GenResult

/-- The model-response client: an oracle mapping each call to its outcome. -/
abbrev Client := GenCall → GenResult

/-- Python truthiness of an `Optional[str]` (`None` and `""` are falsy), used
by the `if not self.google_api_key:` guards. -/
def pyTruthyStr : Option String → Bool
  | none => false
  | some s => !s.isEmpty

/- ### Python string primitives, modelled on `List Char` -/

/-- Python `needle in hay` substring test. -/
def containsSub (hay needle : List Char) : Bool :=
  needle.isPrefixOf hay ||
    match hay with
    | [] => false
    | _ :: t => containsSub t needle

/-- Python `str.lower()` (modelled character-wise). -/
def lowerChars (s : List Char) : List Char := s.map Char.toLower

/-- Python `str.strip()`. -/
def trimChars (s : List Char) : List Char :=
  ((s.dropWhile Char.isWhitespace).reverse.dropWhile Char.isWhitespace).reverse

/-- Python `str.split('\n')`. -/
def splitOnNl (s : List Char) : List (List Char) :=
  match s with
  | [] => [[]]
  | c :: rest =>
    let r := splitOnNl rest
    if c = '\n' then [] :: r
    else
      match r with
      | [] => [[c]]
      | l :: ls => (c :: l) :: ls

/-- Python `'\n'.join(lines)`. -/
def joinNl (lines : List (List Char)) : List Char :=
  match lines with
  | [] => []
  | [l] => l
  | l :: ls => l ++ '\n' :: joinNl ls

/- ### `UserProfileExtractor._parse_extraction_result` -/

/-- The f-string interpolating the current section name followed by a
colon. -/
def labelColon (cs : String) : List Char := cs.data ++ [':']

/-- Header test of the `profile` section:
`"profile:" in line.lower() or "1." in line and "profile" in line.lower()`. -/
def headerProfile (line : List Char) : Bool :=
  containsSub (lowerChars line) "profile:".data ||
    (containsSub line "1.".data && containsSub (lowerChars line) "profile".data)

/-- Header test of the `context` section. -/
def headerContext (line : List Char) : Bool :=
  containsSub (lowerChars line) "context:".data ||
    (containsSub line "2.".data && containsSub (lowerChars line) "context".data)

/-- Header test of the `next` section. -/
def headerNext (line : List Char) : Bool :=
  containsSub (lowerChars line) "next:".data ||
    (containsSub line "3.".data && containsSub (lowerChars line) "next".data)

/-- The flush step `if current_section and section_content:
result[current_section] = '\n'.join(section_content).strip()`. -/
def flushSection (cur : Option String) (acc : List (List Char))
    (res : List (String × String)) : List (String × String) :=
  match cur with
  | none => res
  | some cs =>
    if cs.isEmpty then res
    else if acc.isEmpty then res
    else updStr res cs (String.mk (trimChars (joinNl acc)))

/-- Loop body of `_parse_extraction_result`, one case per line of the Python
`for` loop (source: `src/models/user_profile_extractor.py`, lines 145-172). -/
def parseLoopSrc : List (List Char) → Option String → List (List Char) →
    List (String × String) → List (String × String)
  | [], cur, acc, res => flushSection cur acc res
  | l :: ls, cur, acc, res =>
    let line := trimChars l
    if line.isEmpty then parseLoopSrc ls cur acc res
    else if headerProfile line then parseLoopSrc ls (some "profile") [] res
    else if headerContext line then
      parseLoopSrc ls (some "context") [] (flushSection cur acc res)
    else if headerNext line then
      parseLoopSrc ls (some "next") [] (flushSection cur acc res)
    else
      match cur with
      | none => parseLoopSrc ls cur acc res
      | some cs =>
        if cs.isEmpty then parseLoopSrc ls (some cs) acc res
        else
          let line2 :=
            if (labelColon cs).isPrefixOf line then
              trimChars (line.drop (labelColon cs).length)
            else line
          parseLoopSrc ls (some cs) (acc ++ [line2]) res

/-- `UserProfileExtractor._parse_extraction_result`: the heuristic line parser
turning free-text model output into the three profile sections. -/
def parseExtractionResult (extractionText : String) : List (String × String) :=
  parseLoopSrc (splitOnNl extractionText.data) none []
    [("profile", ""), ("context", ""), ("next", "")]

example : parseExtractionResult "1. profile\n- Alice\n2. context\nfoo" =
    [("profile", "- Alice"), ("context", "foo"), ("next", "")] := by decide

/- ### Conversation messages and the transcript formatters -/

/-- One element of a loaded conversation list: a dict whose `role`, `content`
and `timestamp` keys may each be absent (`none` models a missing key). -/
structure Message where
  role : Option String
  content : Option String
  timestamp : Option String

/-- `"人間" if role == "human" else "アシスタント"`. -/
def roleLabel (role : String) : String :=
  if role = "human" then "人間" else "アシスタント"

/-- Python `d[k]` on a possibly missing key: raises `KeyError` when absent
(`str(KeyError(k))` renders as `'k'`). -/
def exGet (v : Option String) (k : String) : Except String String :=
  match v with
  | some s => .ok s
  | none => .error ("'" ++ k ++ "'")

/-- `ConversationAnalyzer._format_conversation_for_analysis`: renders the
conversation; reading `message["role"]` / `message["content"]` raises on a
record that lacks the key. -/
def formatForAnalysis (conversation : List Message) : Except String String :=
  conversation.foldlM
    (fun acc m => do
      let role ← exGet m.role "role"
      let content ← exGet m.content "content"
      pure (acc ++ "## " ++ roleLabel role ++ "\n" ++ content ++ "\n\n"))
    "# 会話履歴\n\n"

/-- `UserProfileExtractor._format_conversation_for_extraction`: skips records
without a `role` key; formats the timestamp through
`datetime.fromisoformat(...).strftime(...)`, modelled by the oracle `isoFmt`
(which may raise `ValueError`). -/
def formatForExtraction (isoFmt : String → Except String String)
    (conversation : List Message) : Except String String :=
  conversation.foldlM
    (fun acc m =>
      match m.role with
      | none => pure acc
      | some role => do
        let content ← exGet m.content "content"
        let ts ← match m.timestamp with
          | none => pure ""
          | some t => isoFmt t
        pure (acc ++ "## " ++ roleLabel role ++ " (" ++ ts ++ ")\n" ++
          content ++ "\n\n"))
    "# 会話履歴\n\n"

/-- `ConversationSummarizer._format_conversation`: total (uses `.get` with
defaults for both keys). -/
def formatConversationSummary (conversation : List Message) : String :=
  conversation.foldl
    (fun acc m =>
      acc ++ roleLabel (m.role.getD "") ++ ": " ++ m.content.getD "" ++ "\n\n")
    "会話の履歴だよ:\n\n"

/- ### Model names -/

/-- `ConversationAnalyzer.model_name`. -/
def analyzerModelName : String := "gemini-2.0-flash"

/-- `ConversationAnalyzer.fallback_model_name`. -/
def analyzerFallbackModelName : String := "gemini-1.5-pro"

/-- `UserProfileExtractor.model_name`. -/
def profileModelName : String := "gemini-2.0-flash"

/-- `UserProfileExtractor.fallback_model_name`. -/
def profileFallbackModelName : String := "gemini-1.5-pro"

/-- `ConversationSummarizer.model_name`. -/
def summarizerModelName : String := "gemini-2.0-flash-lite"

/-- `ConversationSummarizer.fallback_model_name`. -/
def summarizerFallbackModelName : String := "gemini-2.0-flash"

/- ### Prompts -/

/-- The extraction prompt of `UserProfileExtractor.extract_user_profile`
(the f-string with `conversation_text` interpolated). -/
def profileExtractionPrompt (conversationText : String) : String :=
  "\n以下は人間とAIアシスタントの会話履歴です。この会話から人間（ユーザー）に関する情報を抽出してください。\n\n"
    ++ conversationText ++
  "\n\n以下の3つのカテゴリに分けて情報を抽出してください：\n\n1. profile: ユーザーの基本的なプロフィール情報（生年月日、名前、職業、家族構成など）\n2. context: ユーザーとの会話から得られた一般的な記憶や情報（趣味、関心事、過去の経験など）。複数回の会話がある場合は、それぞれの日時も記録してください。\n3. next: 次回の会話で聞くべき質問や話題（「前回こういう話をしていたけど、その後どうなった？」など）\n\nそれぞれのカテゴリについて、できるだけ詳細に、かつ自然な日本語で記述してください。\n情報が不明な場合は「情報なし」と記入してください。\n"

/-- The intermediate (stage-1) analysis prompt of
`ConversationAnalyzer.analyze_conversation`. -/
def intermediateAnalysisPrompt (conversationText : String) : String :=
  "\n以下は人間とAIアシスタントの会話履歴です。この会話を詳細に分析してください。\n\n"
    ++ conversationText ++
  "\n\n分析には以下の項目を含めてください：\n1. 会話から抽出された主張\n2. 会話で扱われたトピック\n3. 会話の要約\n4. 感情分析\n5. 会話の自然さの分析（特に人間役の発言がどれだけ人間らしいか）\n\n分析は客観的かつ詳細に行ってください。\n"

/-- The final (stage-2) analysis prompt of
`ConversationAnalyzer.analyze_conversation`; `dumped` is
`json.dumps(intermediate_analysis, ensure_ascii=False, indent=2)`. -/
def finalAnalysisPrompt (dumped : String) : String :=
  "\n以下は人間とAIアシスタントの会話履歴の中間分析結果です。この分析結果を元に、最終的な分析レポートを作成してください。\n\n中間分析結果:\n"
    ++ dumped ++
  "\n\n最終分析レポートには以下の項目を含めてください：\n1. 会話のタイトル\n2. 会話の要約\n3. 重要なポイント\n4. 主要なトピック\n5. 人間役の分析（自然さ、強み、弱み、改善提案）\n6. アシスタントの分析（役立ち度、正確さ、強み、弱み）\n7. 会話全体の質の評価\n\n分析は客観的かつ詳細に行ってください。\n"

/-- The summarization prompt of
`ConversationSummarizer.summarize_conversation`. -/
def summaryPrompt (conversationText systemPrompt : String) : String :=
  "\n以下はUserとAssistantのカジュアルな会話です。\n次にUserとはなしたときに会話の記憶として引き出せるよう、以下の3つの情報を自然な文章でまとめてください。\n\n【会話履歴】\n"
    ++ conversationText ++
  "\n【システムプロンプト】\n" ++ systemPrompt ++
  "\n\n以下の形式で、箇条書きではなく自然な文章で出力してください：\n\nprofile: その人となりや印象に残った特徴を自然な文章で書いてください\nepisode: この会話で話した内容や印象に残ったことを、ストーリー形式でまとめてください\nnext: 次回会ったときに話したい話題や、掘り下げたい内容を自然な文章で書いてください\n\n出力例：\nprofile: 技術に興味があり、特にAIの分野に強い関心を持っている20代後半のエンジニア。話し方は丁寧だが、フランクな雰囲気で会話を楽しむタイプ。\n\nepisode: 今回の会話では主にAIの基本的な仕組みについて話し合った。特に機械学習の概念に興味を持っており、実際の応用例について具体的な質問をしていた。説明を聞きながら、自分なりの解釈を加えて理解を深めようとする姿勢が印象的だった。\n\nnext: 機械学習の実践的な応用について、特に画像認識や自然言語処理の具体例を紹介すると喜ばれそう。また、AIプロジェクトの始め方についても興味を持っているようなので、初心者向けの学習リソースや実践的なプロジェクトのアイデアを共有できると良いかもしれない。\n"

/- ### `utils/structured_output.py` schemas
`SchemaType` is a `str` enum, so its members are embedded as their string
values. -/

/-- `create_analysis_schema()`: the stage-1 (intermediate analysis) schema. -/
def createAnalysisSchema : JVal :=
  .obj [
    ("type", .str "object"),
    ("properties", .obj [
      ("claims", .obj [
        ("type", .str "array"),
        ("description", .str "会話から抽出された主張"),
        ("items", .obj [
          ("type", .str "object"),
          ("properties", .obj [
            ("text", .obj [("type", .str "string"), ("description", .str "主張の内容")]),
            ("source", .obj [("type", .str "string"), ("description", .str "主張の情報源（人間かアシスタントか）")]),
            ("evidence", .obj [("type", .str "string"), ("description", .str "主張の根拠となる会話内の発言")]),
            ("certainty", .obj [("type", .str "string"), ("description", .str "主張の確からしさ（高い、中程度、低い）")])]),
          ("required", .arr [.str "text", .str "source", .str "evidence", .str "certainty"])])]),
      ("topics", .obj [
        ("type", .str "array"),
        ("description", .str "会話で扱われたトピック"),
        ("items", .obj [
          ("type", .str "object"),
          ("properties", .obj [
            ("name", .obj [("type", .str "string"), ("description", .str "トピック名")]),
            ("description", .obj [("type", .str "string"), ("description", .str "トピックの説明")]),
            ("relevance", .obj [("type", .str "string"), ("description", .str "会話全体におけるトピックの関連性（高い、中程度、低い）")])]),
          ("required", .arr [.str "name", .str "description", .str "relevance"])])]),
      ("summary", .obj [
        ("type", .str "string"),
        ("description", .str "会話の要約（500文字程度）")]),
      ("sentiment", .obj [
        ("type", .str "object"),
        ("description", .str "会話の感情分析"),
        ("properties", .obj [
          ("human", .obj [("type", .str "string"), ("description", .str "人間の感情（ポジティブ、ニュートラル、ネガティブなど）")]),
          ("assistant", .obj [("type", .str "string"), ("description", .str "アシスタントの感情（ポジティブ、ニュートラル、ネガティブなど）")]),
          ("overall", .obj [("type", .str "string"), ("description", .str "会話全体の感情的な雰囲気")])]),
        ("required", .arr [.str "human", .str "assistant", .str "overall"])]),
      ("naturalness", .obj [
        ("type", .str "object"),
        ("description", .str "会話の自然さの分析"),
        ("properties", .obj [
          ("human_like", .obj [("type", .str "string"), ("description", .str "人間役の発言がどれだけ人間らしいか（1-10のスケール）")]),
          ("reasoning", .obj [("type", .str "string"), ("description", .str "人間らしさの評価理由")]),
          ("improvement", .obj [("type", .str "string"), ("description", .str "より人間らしくするための改善点")])]),
        ("required", .arr [.str "human_like", .str "reasoning", .str "improvement"])])]),
    ("required", .arr [.str "claims", .str "topics", .str "summary", .str "sentiment", .str "naturalness"])]

/-- `create_final_output_schema()`: the stage-2 (final report) schema. -/
def createFinalOutputSchema : JVal :=
  .obj [
    ("type", .str "object"),
    ("properties", .obj [
      ("title", .obj [("type", .str "string"), ("description", .str "会話の内容を表すタイトル")]),
      ("summary", .obj [("type", .str "string"), ("description", .str "会話の要約（1000文字程度）")]),
      ("key_points", .obj [
        ("type", .str "array"),
        ("description", .str "会話の重要なポイント"),
        ("items", .obj [("type", .str "string")])]),
      ("topics", .obj [
        ("type", .str "array"),
        ("description", .str "会話で扱われた主要なトピック"),
        ("items", .obj [("type", .str "string")])]),
      ("human_analysis", .obj [
        ("type", .str "object"),
        ("description", .str "人間役の分析"),
        ("properties", .obj [
          ("naturalness", .obj [("type", .str "string"), ("description", .str "人間らしさの評価（1-10のスケール）")]),
          ("strengths", .obj [("type", .str "array"), ("description", .str "人間らしい点"), ("items", .obj [("type", .str "string")])]),
          ("weaknesses", .obj [("type", .str "array"), ("description", .str "人間らしくない点"), ("items", .obj [("type", .str "string")])]),
          ("improvement", .obj [("type", .str "string"), ("description", .str "より人間らしくするための提案")])]),
        ("required", .arr [.str "naturalness", .str "strengths", .str "weaknesses", .str "improvement"])]),
      ("assistant_analysis", .obj [
        ("type", .str "object"),
        ("description", .str "アシスタントの分析"),
        ("properties", .obj [
          ("helpfulness", .obj [("type", .str "string"), ("description", .str "役立ち度の評価（1-10のスケール）")]),
          ("accuracy", .obj [("type", .str "string"), ("description", .str "情報の正確さの評価（1-10のスケール）")]),
          ("strengths", .obj [("type", .str "array"), ("description", .str "アシスタントの強み"), ("items", .obj [("type", .str "string")])]),
          ("weaknesses", .obj [("type", .str "array"), ("description", .str "アシスタントの弱み"), ("items", .obj [("type", .str "string")])])]),
        ("required", .arr [.str "helpfulness", .str "accuracy", .str "strengths", .str "weaknesses"])]),
      ("overall_quality", .obj [
        ("type", .str "string"),
        ("description", .str "会話全体の質の評価（1-10のスケール）")])]),
    ("required", .arr [.str "title", .str "summary", .str "key_points", .str "topics", .str "human_analysis", .str "assistant_analysis", .str "overall_quality"])]

/- ### `UserProfileExtractor.extract_user_profile` -/

/-- Section dict lifted to a report (`_parse_extraction_result`'s dict). -/
def sectionsToReport (r : List (String × String)) : Report :=
  r.map (fun p => (p.1, JVal.str p.2))

/-- The primary stage call of the profile extractor. -/
def profilePrimaryCall (conversationText : String) : GenCall :=
  { model := profileModelName
    contents := profileExtractionPrompt conversationText
    schema := none }

/-- The fallback call of the profile extractor (same prompt, fallback model). -/
def profileFallbackCall (conversationText : String) : GenCall :=
  { model := profileFallbackModelName
    contents := profileExtractionPrompt conversationText
    schema := none }

/-- The report built by the outer `except` of `extract_user_profile`. -/
def profileErrorReport (msg : String) : Report :=
  [("error", .str ("プロファイル抽出中にエラーが発生しました: " ++ msg))]

/-- The `{"error": "Google API Keyが設定されていません。"}` report used by all
three pipelines. -/
def missingKeyReport : Report :=
  [("error", .str "Google API Keyが設定されていません。")]

/-- `UserProfileExtractor.extract_user_profile`. Besides the report the
embedding returns the trace of model calls issued, in order. An exception of
the fallback call propagates to the outer `try` and becomes the error
report. -/
def extract_user_profile (googleApiKey : Option String) (client : Client)
    (isoFmt : String → Except String String) (nowIso : String)
    (conversation : List Message) : Report × List GenCall :=
  if pyTruthyStr googleApiKey then
    match formatForExtraction isoFmt conversation with
    | .error e => (profileErrorReport e, [])
    | .ok ctext =>
      match client (profilePrimaryCall ctext) with
      | .ok t =>
        (updJ (sectionsToReport (parseExtractionResult t)) "timestamp" (.str nowIso),
         [profilePrimaryCall ctext])
      | .exn _ =>
        match client (profileFallbackCall ctext) with
        | .ok t =>
          (updJ (sectionsToReport (parseExtractionResult t)) "timestamp" (.str nowIso),
           [profilePrimaryCall ctext, profileFallbackCall ctext])
        | .exn e2 =>
          (profileErrorReport e2, [profilePrimaryCall ctext, profileFallbackCall ctext])
  else (missingKeyReport, [])

/- ### `ConversationSummarizer.summarize_conversation` -/

/-- Python `s.startswith(pre)`. -/
def pyStartsWith (s pre : List Char) : Bool := pre.isPrefixOf s

/-- Python `s.replace(pat, '')` for a non-empty `pat` (removes every
occurrence, left to right). -/
def removeAllSub (s pat : List Char) : List Char :=
  match s with
  | [] => []
  | c :: rest =>
    if _h : pat ≠ [] ∧ pat.isPrefixOf (c :: rest) then
      removeAllSub ((c :: rest).drop pat.length) pat
    else c :: removeAllSub rest pat
termination_by s.length
decreasing_by
  · simp only [List.length_drop, List.length_cons]
    exact Nat.sub_lt (Nat.succ_pos _) (List.length_pos.mpr _h.1)
  · simp

/-- Accumulator of the summarizer's inline line parser (the `summary` dict:
keys `profile`, `episode`, `next` in insertion order). -/
structure SummaryAcc where
  profile : String
  episode : List String
  next : List String

/-- One pass of the summarizer's inline `for line in lines:` parser
(source: `src/models/conversation_summarizer.py`, lines 94-112). -/
def summaryLineLoop : List (List Char) → Option String → SummaryAcc → SummaryAcc
  | [], _, acc => acc
  | l :: ls, curKey, acc =>
    let line := trimChars l
    if pyStartsWith line "profile:".data then
      summaryLineLoop ls (some "profile")
        { acc with profile := String.mk (trimChars (removeAllSub line "profile:".data)) }
    else if pyStartsWith line "episode:".data then
      summaryLineLoop ls (some "episode") acc
    else if pyStartsWith line "next:".data then
      summaryLineLoop ls (some "next") acc
    else if !line.isEmpty && pyTruthyStr curKey then
      let line2 := if pyStartsWith line "- ".data then line.drop 2 else line
      match curKey with
      | none => summaryLineLoop ls curKey acc
      | some k =>
        if k = "episode" then
          summaryLineLoop ls curKey { acc with episode := acc.episode ++ [String.mk line2] }
        else if k = "next" then
          summaryLineLoop ls curKey { acc with next := acc.next ++ [String.mk line2] }
        else if k = "profile" && acc.profile.isEmpty then
          summaryLineLoop ls curKey { acc with profile := String.mk line2 }
        else summaryLineLoop ls curKey acc
    else summaryLineLoop ls curKey acc

/-- The summarizer's inline parsing of the model response (the `summary`
dict). The surrounding `except` that would set `raw_text` is dead code: the
parsing is pure string manipulation and cannot raise. -/
def parseSummaryText (resultText : String) : Report :=
  let acc := summaryLineLoop (splitOnNl (trimChars resultText.data)) none
    { profile := "", episode := [], next := [] }
  [("profile", .str acc.profile),
   ("episode", .arr (acc.episode.map JVal.str)),
   ("next", .arr (acc.next.map JVal.str))]

/-- The primary call of the summarizer. -/
def summaryPrimaryCall (conversation : List Message) (systemPrompt : String) : GenCall :=
  { model := summarizerModelName
    contents := summaryPrompt (formatConversationSummary conversation) systemPrompt
    schema := none }

/-- The fallback call of the summarizer (same prompt, fallback model). -/
def summaryFallbackCall (conversation : List Message) (systemPrompt : String) : GenCall :=
  { model := summarizerFallbackModelName
    contents := summaryPrompt (formatConversationSummary conversation) systemPrompt
    schema := none }

/-- The report returned when the summarizer's fallback call also raises. -/
def summarizerErrorReport (msg : String) : Report :=
  [("error", .str ("会話のまとめ生成中にエラーが発生しました: " ++ msg))]

/-- `ConversationSummarizer.summarize_conversation`. The outer
`except`(`"会話まとめ中にエラーが発生しました"`) is dead code — every other
statement of the body is total — and is therefore not a reachable branch of
the embedding. -/
def summarize_conversation (googleApiKey : Option String) (client : Client)
    (nowIso : String) (conversation : List Message) (systemPrompt : String) :
    Report × List GenCall :=
  if pyTruthyStr googleApiKey then
    match client (summaryPrimaryCall conversation systemPrompt) with
    | .ok t =>
      (updJ (parseSummaryText t) "timestamp" (.str nowIso),
       [summaryPrimaryCall conversation systemPrompt])
    | .exn _ =>
      match client (summaryFallbackCall conversation systemPrompt) with
      | .ok t =>
        (updJ (parseSummaryText t) "timestamp" (.str nowIso),
         [summaryPrimaryCall conversation systemPrompt,
          summaryFallbackCall conversation systemPrompt])
      | .exn e2 =>
        (summarizerErrorReport e2,
         [summaryPrimaryCall conversation systemPrompt,
          summaryFallbackCall conversation systemPrompt])
  else (missingKeyReport, [])

/- ### `ConversationAnalyzer.analyze_conversation` -/

/-- `json.loads` with the `except` fallback to `{"raw_text": ...}`. -/
def parseOrRaw (jparse : String → Option JVal) (t : String) : JVal :=
  match jparse t with
  | some v => v
  | none => .obj [("raw_text", .str t)]

/-- One stage of the analyzer: primary call, on exception one fallback call
(same prompt and schema); a fallback exception propagates (`.error`). -/
def analyzerStage (client : Client) (jparse : String → Option JVal)
    (prompt : String) (schema : JVal) : Except String JVal × List GenCall :=
  let c1 : GenCall := { model := analyzerModelName, contents := prompt, schema := some schema }
  match client c1 with
  | .ok t => (.ok (parseOrRaw jparse t), [c1])
  | .exn _ =>
    let c2 : GenCall := { model := analyzerFallbackModelName, contents := prompt, schema := some schema }
    match client c2 with
    | .ok t => (.ok (parseOrRaw jparse t), [c1, c2])
    | .exn e2 => (.error e2, [c1, c2])

/-- The stage-1 primary call of the analyzer. -/
def analyzerStage1Primary (conversationText : String) : GenCall :=
  { model := analyzerModelName
    contents := intermediateAnalysisPrompt conversationText
    schema := some createAnalysisSchema }

/-- The stage-1 fallback call of the analyzer. -/
def analyzerStage1Fallback (conversationText : String) : GenCall :=
  { model := analyzerFallbackModelName
    contents := intermediateAnalysisPrompt conversationText
    schema := some createAnalysisSchema }

/-- The stage-2 primary call of the analyzer (`dumped` is the serialized
intermediate analysis). -/
def analyzerStage2Primary (dumped : String) : GenCall :=
  { model := analyzerModelName
    contents := finalAnalysisPrompt dumped
    schema := some createFinalOutputSchema }

/-- The stage-2 fallback call of the analyzer. -/
def analyzerStage2Fallback (dumped : String) : GenCall :=
  { model := analyzerFallbackModelName
    contents := finalAnalysisPrompt dumped
    schema := some createFinalOutputSchema }

/-- The report built by the outer `except` of `analyze_conversation`. -/
def analyzerErrorReport (msg : String) : Report :=
  [("error", .str ("会話分析中にエラーが発生しました: " ++ msg))]

/-- `ConversationAnalyzer.analyze_conversation`: two stages, each with the
fallback pattern; a stage failure (both calls raised) reaches the outer
`except` so later stages never run. -/
def analyze_conversation (googleApiKey : Option String) (client : Client)
    (jparse : String → Option JVal) (jdump : JVal → String) (nowIso : String)
    (conversation : List Message) : Report × List GenCall :=
  if pyTruthyStr googleApiKey then
    match formatForAnalysis conversation with
    | .error e => (analyzerErrorReport e, [])
    | .ok ctext =>
      match analyzerStage client jparse (intermediateAnalysisPrompt ctext) createAnalysisSchema with
      | (.error e, tr1) => (analyzerErrorReport e, tr1)
      | (.ok ia, tr1) =>
        match analyzerStage client jparse (finalAnalysisPrompt (jdump ia)) createFinalOutputSchema with
        | (.error e, tr2) => (analyzerErrorReport e, tr1 ++ tr2)
        | (.ok fa, tr2) =>
          ([("intermediate_analysis", ia), ("final_analysis", fa),
            ("meta", .obj [("timestamp", .str nowIso), ("model", .str analyzerModelName)])],
           tr1 ++ tr2)
  else (missingKeyReport, [])

/- ### Turn-taking conversation engine -/

/-- One utterance of a transcript (spec §3 **Turn**). -/
structure Turn where
  role : String
  content : String
  timestamp : String

/-- Modelled from the spec: the **Conversation Configuration** bundle of §3
(`src/models/llm_manager.py`, imported by `src/app.py`, is not among the
sources). -/
structure ConvConfig where
  assistantModel : String
  humanModel : String
  assistantSystemPrompt : String
  humanSystemPrompt : String
  initialPrompt : String
  numTurns : Nat

/-- Modelled from the spec: the role alternation of §4.3 (strictly
alternating generation between the two personas). -/
def otherRole (r : String) : String :=
  if r = "human" then "assistant" else "human"

/-- Modelled from the spec: §4.3 step 2, the per-turn context window — the
full ordered transcript so far rendered as role-labeled text. -/
def renderTranscript (turns : List Turn) : String :=
  turns.foldl (fun acc t => acc ++ t.role ++ ": " ++ t.content ++ "\n") ""

/-- Modelled from the spec: the half-turn loop of
`LLMManager.simulate_conversation` (§4.3 steps 2-6): each iteration generates
one utterance for the role opposite the previous turn's role, appending it on
success; a terminal client failure aborts, returning the transcript truncated
at the last successful turn. `now` is the timestamp oracle, indexed by the
number of turns already completed. -/
def simulateLoop (client : Client) (now : Nat → String) (cfg : ConvConfig) :
    Nat → List Turn → List Turn
  | 0, acc => acc
  | n + 1, acc =>
    let prevRole := ((acc.getLast?).map Turn.role).getD "assistant"
    let role := otherRole prevRole
    let model := if role = "human" then cfg.humanModel else cfg.assistantModel
    let sys := if role = "human" then cfg.humanSystemPrompt else cfg.assistantSystemPrompt
    match client { model := model, contents := sys ++ "\n\n" ++ renderTranscript acc, schema := none } with
    | .ok text => simulateLoop client now cfg n (acc ++ [{ role := role, content := text, timestamp := now acc.length }])
    | .exn _ => acc

/-- Modelled from the spec: `LLMManager.simulate_conversation` (§4.3): the
seed utterance is attributed to the human-proxy role and occupies turn 0
(§8 scenario 6: roles `[human, assistant, ...]`); the remaining
`2 * num_turns - 1` half-turns alternate. -/
def simulate_conversation (client : Client) (now : Nat → String)
    (cfg : ConvConfig) : List Turn :=
  simulateLoop client now cfg (2 * cfg.numTurns - 1)
    [{ role := "human", content := cfg.initialPrompt, timestamp := now 0 }]

/- ### Persisted transcript (JSON) — spec §6, `src/app.py` lines 224-241,
`src/ui/history_page.py` lines 68-71.

`json.dump` / `json.load` are modelled by a concrete printer/parser pair for
the persisted shape: an array whose optional element 0 is the `meta` record
and whose remaining elements are turn records. The printer emits the compact
rendering (the `indent=2` pretty-printing only inserts whitespace, which
`json.load` ignores); string escaping is modelled for the characters the
encoder escapes with a short form. -/

/-- The `U+007B` character (kept out of string literals). -/
def lbrace : Char := Char.ofNat 123

/-- The `U+007D` character (kept out of string literals). -/
def rbrace : Char := Char.ofNat 125

/-- JSON string-body escaping (`json.dumps` with `ensure_ascii=False`). -/
def escChars : List Char → List Char
  | [] => []
  | c :: cs =>
    (if c = '"' then ['\\', '"']
     else if c = '\\' then ['\\', '\\']
     else if c = '\n' then ['\\', 'n']
     else if c = '\t' then ['\\', 't']
     else if c = '\r' then ['\\', 'r']
     else [c]) ++ escChars cs

/-- Decoding of a JSON escape character. -/
def unescChar (c : Char) : Option Char :=
  if c = '"' then some '"'
  else if c = '\\' then some '\\'
  else if c = 'n' then some '\n'
  else if c = 't' then some '\t'
  else if c = 'r' then some '\r'
  else none

/-- Parses a JSON string body up to and including the closing quote;
returns the decoded content and the remaining input. -/
def parseStrBody : List Char → Option (List Char × List Char)
  | [] => none
  | '"' :: rest => some ([], rest)
  | '\\' :: [] => none
  | '\\' :: e :: rest2 =>
    match unescChar e, parseStrBody rest2 with
    | some d, some (s, r) => some (d :: s, r)
    | _, _ => none
  | c :: rest =>
    match parseStrBody rest with
    | some (s, r) => some (c :: s, r)
    | none => none

/-- Consumes an expected literal prefix. -/
def expectLit : List Char → List Char → Option (List Char)
  | [], s => some s
  | _ :: _, [] => none
  | c :: cs, d :: ds => if c = d then expectLit cs ds else none

/-- Decimal digit to character. -/
def digitChar (d : Nat) : Char := Char.ofNat (48 + d)

/-- Decimal printing worker; `fuel` only bounds the recursion depth (any
`fuel > n` yields the digits of `n`). -/
def natToCharsAux (fuel n : Nat) : List Char :=
  match fuel with
  | 0 => []
  | fuel + 1 => if n < 10 then [digitChar n] else natToCharsAux fuel (n / 10) ++ [digitChar (n % 10)]

/-- Decimal printing of a natural number (`json.dump` of a Python `int`). -/
def natToChars (n : Nat) : List Char := natToCharsAux (n + 1) n

/-- Character to decimal digit value. -/
def digitVal (c : Char) : Nat := c.toNat - 48

/-- Decimal reading of a digit string. -/
def digitsToNat (ds : List Char) : Nat := ds.foldl (fun a c => 10 * a + digitVal c) 0

/-- Parses a non-empty run of decimal digits. -/
def parseNatChars (s : List Char) : Option (Nat × List Char) :=
  let ds := s.takeWhile Char.isDigit
  if ds.isEmpty then none else some (digitsToNat ds, s.dropWhile Char.isDigit)

/-- The `meta` record written at element 0 of the persisted transcript
(`src/app.py` lines 225-234). -/
structure ConvMeta where
  assistant_model : String
  human_model : String
  assistant_system_prompt : String
  human_system_prompt : String
  num_turns : Nat
  timestamp : String

/-- One element of the persisted array: the optional leading metadata record
or a turn record. -/
inductive PersistEntry where
  | meta : ConvMeta → PersistEntry
  | turn : Turn → PersistEntry

/-- Literal `{"role":"`. -/
def turnOpenLit : List Char := [lbrace, '"', 'r', 'o', 'l', 'e', '"', ':', '"']

/-- Literal `,"content":"`. -/
def contentSepLit : List Char := [',', '"', 'c', 'o', 'n', 't', 'e', 'n', 't', '"', ':', '"']

/-- Literal `,"timestamp":"`. -/
def timestampSepLit : List Char :=
  [',', '"', 't', 'i', 'm', 'e', 's', 't', 'a', 'm', 'p', '"', ':', '"']

/-- Literal `{"meta":{"assistant_model":"`. -/
def metaOpenLit : List Char :=
  [lbrace, '"', 'm', 'e', 't', 'a', '"', ':', lbrace,
   '"', 'a', 's', 's', 'i', 's', 't', 'a', 'n', 't', '_', 'm', 'o', 'd', 'e', 'l', '"', ':', '"']

/-- Literal `,"human_model":"`. -/
def humanModelSepLit : List Char :=
  [',', '"', 'h', 'u', 'm', 'a', 'n', '_', 'm', 'o', 'd', 'e', 'l', '"', ':', '"']

/-- Literal `,"assistant_system_prompt":"`. -/
def aspSepLit : List Char :=
  [',', '"', 'a', 's', 's', 'i', 's', 't', 'a', 'n', 't', '_', 's', 'y', 's', 't', 'e', 'm',
   '_', 'p', 'r', 'o', 'm', 'p', 't', '"', ':', '"']

/-- Literal `,"human_system_prompt":"`. -/
def hspSepLit : List Char :=
  [',', '"', 'h', 'u', 'm', 'a', 'n', '_', 's', 'y', 's', 't', 'e', 'm',
   '_', 'p', 'r', 'o', 'm', 'p', 't', '"', ':', '"']

/-- Literal `,"num_turns":`. -/
def numTurnsSepLit : List Char :=
  [',', '"', 'n', 'u', 'm', '_', 't', 'u', 'r', 'n', 's', '"', ':']

/-- The persisted JSON of one turn record
`{"role": ..., "content": ..., "timestamp": ...}` (spec §6). -/
def turnChars (t : Turn) : List Char :=
  turnOpenLit ++ escChars t.role.data ++
    '"' :: (contentSepLit ++ escChars t.content.data ++
    '"' :: (timestampSepLit ++ escChars t.timestamp.data ++ '"' :: [rbrace]))

/-- The persisted JSON of the metadata record (`src/app.py` lines 225-234). -/
def metaChars (m : ConvMeta) : List Char :=
  metaOpenLit ++ escChars m.assistant_model.data ++
    '"' :: (humanModelSepLit ++ escChars m.human_model.data ++
    '"' :: (aspSepLit ++ escChars m.assistant_system_prompt.data ++
    '"' :: (hspSepLit ++ escChars m.human_system_prompt.data ++
    '"' :: (numTurnsSepLit ++ natToChars m.num_turns ++
    timestampSepLit ++ escChars m.timestamp.data ++ '"' :: rbrace :: [rbrace]))))

/-- The persisted JSON of one array element. -/
def entryChars : PersistEntry → List Char
  | .meta m => metaChars m
  | .turn t => turnChars t

/-- Comma-separated rendering of the elements after the first. -/
def entryTailChars : List PersistEntry → List Char
  | [] => []
  | e :: es => ',' :: (entryChars e ++ entryTailChars es)

/-- The persisted element list `conversation_with_meta = [meta_info] +
conversation` (`src/app.py` line 235): the metadata record, when present, is
element 0, followed by the turns in order. -/
def persistedEntries (meta? : Option ConvMeta) (turns : List Turn) : List PersistEntry :=
  (match meta? with
   | none => []
   | some m => [PersistEntry.meta m]) ++ turns.map PersistEntry.turn

/-- The full persisted JSON array. -/
def entriesJsonChars (es : List PersistEntry) : List Char :=
  match es with
  | [] => ['[', ']']
  | e :: rest => '[' :: (entryChars e ++ entryTailChars rest) ++ [']']

/-- Serialization of a transcript to the persisted JSON shape
(`json.dump(conversation_with_meta, ...)`). -/
def transcriptToJson (meta? : Option ConvMeta) (turns : List Turn) : String :=
  String.mk (entriesJsonChars (persistedEntries meta? turns))

/-- Parses one persisted array element (metadata record or turn record). -/
def parsePersistEntry (s : List Char) : Option (PersistEntry × List Char) :=
  match expectLit metaOpenLit s with
  | some s1 =>
    match parseStrBody s1 with
    | none => none
    | some (am, s2) =>
      match expectLit humanModelSepLit s2 with
      | none => none
      | some s3 =>
        match parseStrBody s3 with
        | none => none
        | some (hm, s4) =>
          match expectLit aspSepLit s4 with
          | none => none
          | some s5 =>
            match parseStrBody s5 with
            | none => none
            | some (asp, s6) =>
              match expectLit hspSepLit s6 with
              | none => none
              | some s7 =>
                match parseStrBody s7 with
                | none => none
                | some (hsp, s8) =>
                  match expectLit numTurnsSepLit s8 with
                  | none => none
                  | some s9 =>
                    match parseNatChars s9 with
                    | none => none
                    | some (n, s10) =>
                      match expectLit timestampSepLit s10 with
                      | none => none
                      | some s11 =>
                        match parseStrBody s11 with
                        | none => none
                        | some (ts, s12) =>
                          match expectLit [rbrace, rbrace] s12 with
                          | none => none
                          | some s13 =>
                            some (.meta ⟨String.mk am, String.mk hm, String.mk asp,
                              String.mk hsp, n, String.mk ts⟩, s13)
  | none =>
    match expectLit turnOpenLit s with
    | none => none
    | some s1 =>
      match parseStrBody s1 with
      | none => none
      | some (role, s2) =>
        match expectLit contentSepLit s2 with
        | none => none
        | some s3 =>
          match parseStrBody s3 with
          | none => none
          | some (content, s4) =>
            match expectLit timestampSepLit s4 with
            | none => none
            | some s5 =>
              match parseStrBody s5 with
              | none => none
              | some (ts, s6) =>
                match expectLit [rbrace] s6 with
                | none => none
                | some s7 =>
                  some (.turn ⟨String.mk role, String.mk content, String.mk ts⟩, s7)

/-- Parses `("," element)* "]"` with explicit fuel. -/
def parseEntriesTail (fuel : Nat) (s : List Char) :
    Option (List PersistEntry × List Char) :=
  match fuel, s with
  | 0, _ => none
  | _ + 1, [] => none
  | fuel + 1, c :: rest =>
    if c = ']' then some ([], rest)
    else if c = ',' then
      match parsePersistEntry rest with
      | none => none
      | some (e, s1) =>
        match parseEntriesTail fuel s1 with
        | none => none
        | some (es, s2) => some (e :: es, s2)
    else none

/-- Parses the persisted JSON array. -/
def parseEntryList (s : List Char) : Option (List PersistEntry × List Char) :=
  match s with
  | [] => none
  | c :: rest =>
    if c = '[' then
      match rest with
      | [] => none
      | d :: _ =>
        if d = ']' then some ([], rest.tail)
        else
          match parsePersistEntry rest with
          | none => none
          | some (e, s1) =>
            match parseEntriesTail (s1.length + 1) s1 with
            | none => none
            | some (es, s2) => some (e :: es, s2)
    else none

/-- Re-parsing of a persisted transcript (`json.load`): the whole input must
be one array. -/
def transcriptFromJson (s : String) : Option (List PersistEntry) :=
  match parseEntryList s.data with
  | some (es, []) => some es
  | _ => none

/- ### Round-trip lemmas for the persisted JSON shape -/

theorem expectLit_self (l r : List Char) : expectLit l (l ++ r) = some r := by
  induction l with
  | nil => rfl
  | cons c cs ih => simp [expectLit, ih]

theorem parseStrBody_escChars (s rest : List Char) :
    parseStrBody (escChars s ++ '"' :: rest) = some (s, rest) := by
  induction s with
  | nil => simp [escChars, parseStrBody]
  | cons c cs ih =>
    by_cases h1 : c = '"'
    · subst h1; simp [escChars, parseStrBody, unescChar, ih]
    · by_cases h2 : c = '\\'
      · subst h2; simp [escChars, parseStrBody, unescChar, ih]
      · by_cases h3 : c = '\n'
        · subst h3; simp [escChars, parseStrBody, unescChar, ih]
        · by_cases h4 : c = '\t'
          · subst h4; simp [escChars, parseStrBody, unescChar, ih]
          · by_cases h5 : c = '\r'
            · subst h5; simp [escChars, parseStrBody, unescChar, ih]
            · simp [escChars, parseStrBody, h1, h2, h3, h4, h5, ih]

theorem digitChar_isDigit (d : Nat) (h : d < 10) : (digitChar d).isDigit = true := by
  interval_cases d <;> decide

theorem digitVal_digitChar (d : Nat) (h : d < 10) : digitVal (digitChar d) = d := by
  interval_cases d <;> decide

theorem natToCharsAux_congr (n : Nat) :
    ∀ f1 f2, n < f1 → n < f2 → natToCharsAux f1 n = natToCharsAux f2 n := by
  induction n using Nat.strong_induction_on with
  | _ n ih =>
    intro f1 f2 h1 h2
    match f1, f2 with
    | a + 1, b + 1 =>
      by_cases h : n < 10
      · simp [natToCharsAux, h]
      · have hpos : 0 < n := by omega
        have hlt : n / 10 < n := Nat.div_lt_self hpos (by norm_num)
        simp only [natToCharsAux, if_neg h]
        rw [ih (n / 10) hlt a b (by omega) (by omega)]

theorem natToChars_def (n : Nat) :
    natToChars n = if n < 10 then [digitChar n] else natToChars (n / 10) ++ [digitChar (n % 10)] := by
  by_cases h : n < 10
  · simp [natToChars, natToCharsAux, h]
  · have hpos : 0 < n := by omega
    have hlt : n / 10 < n := Nat.div_lt_self hpos (by norm_num)
    rw [if_neg h]
    have h1 : natToChars n = natToCharsAux n (n / 10) ++ [digitChar (n % 10)] := by
      simp only [natToChars, natToCharsAux, if_neg h]
    rw [h1, natToCharsAux_congr (n / 10) n (n / 10 + 1) (by omega) (Nat.lt_succ_self _)]
    rfl

theorem mem_natToChars_isDigit (n : Nat) :
    ∀ c ∈ natToChars n, c.isDigit = true := by
  induction n using Nat.strong_induction_on with
  | _ n ih =>
    intro c hc
    rw [natToChars_def] at hc
    by_cases h : n < 10
    · simp [h] at hc
      subst hc; exact digitChar_isDigit n h
    · have hpos : 0 < n := by omega
      simp [h] at hc
      rcases hc with hc | hc
      · exact ih (n / 10) (Nat.div_lt_self hpos (by norm_num)) c hc
      · subst hc; exact digitChar_isDigit _ (Nat.mod_lt n (by norm_num))

theorem natToChars_ne_nil (n : Nat) : natToChars n ≠ [] := by
  rw [natToChars_def]
  by_cases h : n < 10 <;> simp [h]

theorem digitsToNat_natToChars (n : Nat) : digitsToNat (natToChars n) = n := by
  induction n using Nat.strong_induction_on with
  | _ n ih =>
    rw [natToChars_def]
    by_cases h : n < 10
    · simp [h, digitsToNat, digitVal_digitChar n h]
    · have hpos : 0 < n := by omega
      simp only [if_neg h, digitsToNat, List.foldl_append, List.foldl_cons, List.foldl_nil]
      have h1 : digitsToNat (natToChars (n / 10)) = n / 10 :=
        ih (n / 10) (Nat.div_lt_self hpos (by norm_num))
      simp only [digitsToNat] at h1
      rw [h1, digitVal_digitChar _ (Nat.mod_lt n (by norm_num))]
      omega

theorem takeWhile_append_all {α : Type} (p : α → Bool) (l r : List α)
    (h : ∀ c ∈ l, p c = true) : (l ++ r).takeWhile p = l ++ r.takeWhile p := by
  induction l with
  | nil => simp
  | cons a as ih =>
    simp only [List.cons_append, List.takeWhile_cons]
    rw [h a (by simp), ih (fun c hc => h c (by simp [hc]))]
    simp

theorem dropWhile_append_all {α : Type} (p : α → Bool) (l r : List α)
    (h : ∀ c ∈ l, p c = true) : (l ++ r).dropWhile p = r.dropWhile p := by
  induction l with
  | nil => simp
  | cons a as ih =>
    simp only [List.cons_append, List.dropWhile_cons]
    rw [h a (by simp), ih (fun c hc => h c (by simp [hc]))]
    simp

theorem parseNatChars_natToChars (n : Nat) (rest : List Char)
    (hc : ∀ c, rest.head? = some c → c.isDigit = false) :
    parseNatChars (natToChars n ++ rest) = some (n, rest) := by
  have htake : rest.takeWhile Char.isDigit = [] := by
    cases rest with
    | nil => rfl
    | cons c cs => simp [List.takeWhile_cons, hc c rfl]
  have hdrop : rest.dropWhile Char.isDigit = rest := by
    cases rest with
    | nil => rfl
    | cons c cs => simp [List.dropWhile_cons, hc c rfl]
  simp only [parseNatChars,
    takeWhile_append_all Char.isDigit _ _ (mem_natToChars_isDigit n),
    dropWhile_append_all Char.isDigit _ _ (mem_natToChars_isDigit n),
    htake, hdrop, List.append_nil]
  simp [natToChars_ne_nil n, List.isEmpty_iff, digitsToNat_natToChars]

theorem expectLit_single (c : Char) (r : List Char) : expectLit [c] (c :: r) = some r := by
  simp [expectLit]

theorem expectLit_pair (c d : Char) (r : List Char) :
    expectLit [c, d] (c :: d :: r) = some r := by
  simp [expectLit]

theorem parseNatChars_before_ts (n : Nat) (X : List Char) :
    parseNatChars (natToChars n ++ (timestampSepLit ++ X)) = some (n, timestampSepLit ++ X) := by
  apply parseNatChars_natToChars
  intro c hc
  simp [timestampSepLit] at hc
  subst hc
  decide

theorem expectLit_meta_on_turn (X : List Char) :
    expectLit metaOpenLit (turnOpenLit ++ X) = none := rfl

theorem parsePersistEntry_turnChars (t : Turn) (rest : List Char) :
    parsePersistEntry (turnChars t ++ rest) = some (.turn t, rest) := by
  simp only [parsePersistEntry, turnChars, List.append_assoc, List.cons_append,
    List.nil_append, expectLit_meta_on_turn, expectLit_self, parseStrBody_escChars,
    expectLit_single]

theorem parsePersistEntry_metaChars (m : ConvMeta) (rest : List Char) :
    parsePersistEntry (metaChars m ++ rest) = some (.meta m, rest) := by
  simp only [parsePersistEntry, metaChars, List.append_assoc, List.cons_append,
    List.nil_append, expectLit_self, parseStrBody_escChars, parseNatChars_before_ts,
    expectLit_pair]

theorem parsePersistEntry_entryChars (e : PersistEntry) (rest : List Char) :
    parsePersistEntry (entryChars e ++ rest) = some (e, rest) := by
  cases e with
  | meta m => exact parsePersistEntry_metaChars m rest
  | turn t => exact parsePersistEntry_turnChars t rest

theorem entryTail_length_le (es : List PersistEntry) :
    es.length ≤ (entryTailChars es).length := by
  induction es with
  | nil => simp [entryTailChars]
  | cons e tail ih =>
    simp only [entryTailChars, List.length_cons, List.length_append]
    omega

theorem parseEntriesTail_cons_comma (f : Nat) (rest : List Char) :
    parseEntriesTail (f + 1) (',' :: rest) =
      (match parsePersistEntry rest with
       | none => none
       | some (e, s1) =>
         match parseEntriesTail f s1 with
         | none => none
         | some (es, s2) => some (e :: es, s2)) := rfl

theorem parseEntriesTail_spec (es : List PersistEntry) :
    ∀ fuel X, es.length < fuel →
      parseEntriesTail fuel (entryTailChars es ++ ']' :: X) = some (es, X) := by
  induction es with
  | nil =>
    intro fuel X h
    cases fuel with
    | zero => omega
    | succ f => rfl
  | cons e tail ih =>
    intro fuel X h
    cases fuel with
    | zero => omega
    | succ f =>
      have h2 : tail.length < f := by simp at h; omega
      simp only [entryTailChars, List.cons_append, List.append_assoc]
      have step1 : parseEntriesTail (f + 1)
          (',' :: (entryChars e ++ (entryTailChars tail ++ ']' :: X))) =
          (match parseEntriesTail f (entryTailChars tail ++ ']' :: X) with
           | none => none
           | some (es, s2) => some (e :: es, s2)) := by
        rw [parseEntriesTail_cons_comma, parsePersistEntry_entryChars]
      rw [step1, ih f X h2]

theorem entryChars_head (e : PersistEntry) : ∃ tl, entryChars e = lbrace :: tl := by
  cases e with
  | meta m => exact ⟨_, rfl⟩
  | turn t => exact ⟨_, rfl⟩

theorem parseEntryList_cons_lbrace (tl : List Char) :
    parseEntryList ('[' :: lbrace :: tl) =
      (match parsePersistEntry (lbrace :: tl) with
       | none => none
       | some (e, s1) =>
         match parseEntriesTail (s1.length + 1) s1 with
         | none => none
         | some (es, s2) => some (e :: es, s2)) := rfl

theorem parseEntryList_entriesJson (es : List PersistEntry) :
    parseEntryList (entriesJsonChars es) = some (es, []) := by
  cases es with
  | nil => rfl
  | cons e tail =>
    obtain ⟨tl, htl⟩ := entryChars_head e
    have hlen : tail.length < (entryTailChars tail ++ [']']).length + 1 := by
      have := entryTail_length_le tail
      simp only [List.length_append]
      omega
    have step1 : parseEntryList ('[' :: (entryChars e ++ (entryTailChars tail ++ [']']))) =
        (match parseEntriesTail ((entryTailChars tail ++ [']']).length + 1)
            (entryTailChars tail ++ [']']) with
         | none => none
         | some (es, s2) => some (e :: es, s2)) := by
      rw [htl, List.cons_append, parseEntryList_cons_lbrace, ← List.cons_append, ← htl,
        parsePersistEntry_entryChars]
    simp only [entriesJsonChars, List.cons_append, List.append_assoc]
    rw [step1, parseEntriesTail_spec tail _ [] hlen]

/-- C9: for every transcript, with or without a leading metadata record,
serializing it to the persisted JSON shape and re-parsing that JSON yields an
identical ordered sequence of turn records, with the metadata record, if
present, surviving as element 0. -/
theorem c9_transcript_roundtrip (meta? : Option ConvMeta) (turns : List Turn) :
    transcriptFromJson (transcriptToJson meta? turns) =
      some ((match meta? with
             | none => []
             | some m => [PersistEntry.meta m]) ++ turns.map PersistEntry.turn) := by
  have h := parseEntryList_entriesJson (persistedEntries meta? turns)
  simp only [transcriptFromJson, transcriptToJson]
  rw [h]
  rfl

/- ### Alternation invariant of the engine -/

theorem otherRole_ne (r : String) : otherRole r ≠ r := by
  unfold otherRole
  by_cases h : r = "human"
  · subst h; simp
  · simp only [if_neg h]
    exact fun e => h e.symm

theorem chain_append_one {R : Turn → Turn → Prop} (acc : List Turn) (t : Turn)
    (h : List.Chain' R acc) (hlast : ∀ x, acc.getLast? = some x → R x t) :
    List.Chain' R (acc ++ [t]) := by
  rw [List.chain'_append]
  refine ⟨h, List.chain'_singleton t, ?_⟩
  intro x hx y hy
  simp only [List.head?_cons, Option.mem_def, Option.some.injEq] at hy
  subst hy
  exact hlast x hx

theorem simulateLoop_alternates (client : Client) (now : Nat → String) (cfg : ConvConfig) :
    ∀ n acc, List.Chain' (fun a b => a.role ≠ b.role) acc →
      List.Chain' (fun a b => a.role ≠ b.role) (simulateLoop client now cfg n acc) := by
  intro n
  induction n with
  | zero => intro acc h; exact h
  | succ n ih =>
    intro acc h
    simp only [simulateLoop]
    split
    · apply ih
      apply chain_append_one _ _ h
      intro x hx
      simp only [hx, Option.map_some', Option.getD_some]
      exact (otherRole_ne x.role).symm
    · exact h

/- ### Properties of `_parse_extraction_result` -/

theorem containsSub_of_pfx (needle hay : List Char)
    (h : needle.isPrefixOf hay = true) : containsSub hay needle = true := by
  cases hay <;> simp [containsSub, h]

theorem pfx_map_lower (p line : List Char) (h : p.isPrefixOf line = true) :
    (lowerChars p).isPrefixOf (lowerChars line) = true := by
  rw [ List.isPrefixOf_iff_prefix] at h ⊢
  exact h.map Char.toLower

theorem headerProfile_of_labelColon (line : List Char)
    (h : (labelColon "profile").isPrefixOf line = true) : headerProfile line = true := by
  have h2 := pfx_map_lower _ _ h
  have h3 : lowerChars (labelColon "profile") = "profile:".data := by decide
  rw [h3] at h2
  simp [headerProfile, containsSub_of_pfx _ _ h2]

theorem headerContext_of_labelColon (line : List Char)
    (h : (labelColon "context").isPrefixOf line = true) : headerContext line = true := by
  have h2 := pfx_map_lower _ _ h
  have h3 : lowerChars (labelColon "context") = "context:".data := by decide
  rw [h3] at h2
  simp [headerContext, containsSub_of_pfx _ _ h2]

theorem headerNext_of_labelColon (line : List Char)
    (h : (labelColon "next").isPrefixOf line = true) : headerNext line = true := by
  have h2 := pfx_map_lower _ _ h
  have h3 : lowerChars (labelColon "next") = "next:".data := by decide
  rw [h3] at h2
  simp [headerNext, containsSub_of_pfx _ _ h2]

/-- Written from the amended claim's words: same header recognition and
accumulation as the source parser, but a content line is kept as stripped —
no `"- "` bullet marker is removed (and no other prefix either: the source's
`"<section>:"`-prefix strip is unreachable, since any line starting with
`"<section>:"` is classified as a header). A `profile:` header discards any
unflushed content of the previous section; `context:`/`next:` headers flush
it. -/
def parseLoopAmended : List (List Char) → Option String → List (List Char) →
    List (String × String) → List (String × String)
  | [], cur, acc, res => flushSection cur acc res
  | l :: ls, cur, acc, res =>
    let line := trimChars l
    if line.isEmpty then parseLoopAmended ls cur acc res
    else if headerProfile line then parseLoopAmended ls (some "profile") [] res
    else if headerContext line then
      parseLoopAmended ls (some "context") [] (flushSection cur acc res)
    else if headerNext line then
      parseLoopAmended ls (some "next") [] (flushSection cur acc res)
    else
      match cur with
      | none => parseLoopAmended ls cur acc res
      | some cs =>
        if cs.isEmpty then parseLoopAmended ls (some cs) acc res
        else parseLoopAmended ls (some cs) (acc ++ [line]) res

/-- The amended-claim reference parser. -/
def profileSectionsAmended (extractionText : String) : List (String × String) :=
  parseLoopAmended (splitOnNl extractionText.data) none []
    [("profile", ""), ("context", ""), ("next", "")]

/-- Written from the original claim's words (C7): recognizes the same
headers, accumulates non-header lines into the active section, and strips a
single leading `"- "` bullet marker per line; every header switch flushes the
previous section. -/
def parseLoopClaimed : List (List Char) → Option String → List (List Char) →
    List (String × String) → List (String × String)
  | [], cur, acc, res => flushSection cur acc res
  | l :: ls, cur, acc, res =>
    let line := trimChars l
    if line.isEmpty then parseLoopClaimed ls cur acc res
    else if headerProfile line then
      parseLoopClaimed ls (some "profile") [] (flushSection cur acc res)
    else if headerContext line then
      parseLoopClaimed ls (some "context") [] (flushSection cur acc res)
    else if headerNext line then
      parseLoopClaimed ls (some "next") [] (flushSection cur acc res)
    else
      match cur with
      | none => parseLoopClaimed ls cur acc res
      | some cs =>
        if cs.isEmpty then parseLoopClaimed ls (some cs) acc res
        else
          let line2 := if pyStartsWith line "- ".data then line.drop 2 else line
          parseLoopClaimed ls (some cs) (acc ++ [line2]) res

/-- The original-claim reference parser. -/
def profileSectionsClaimed (extractionText : String) : List (String × String) :=
  parseLoopClaimed (splitOnNl extractionText.data) none []
    [("profile", ""), ("context", ""), ("next", "")]

theorem parseLoop_amended_eq : ∀ (ls : List (List Char)) (cur : Option String)
    (acc : List (List Char)) (res : List (String × String)),
    (cur = none ∨ cur = some "profile" ∨ cur = some "context" ∨ cur = some "next") →
    parseLoopSrc ls cur acc res = parseLoopAmended ls cur acc res := by
  intro ls
  induction ls with
  | nil => intros; rfl
  | cons l ls ih =>
    intro cur acc res hcur
    simp only [parseLoopSrc, parseLoopAmended]
    cases h1 : (trimChars l).isEmpty with
    | true => simp only [h1, if_true]; exact ih _ _ _ hcur
    | false =>
      simp only [h1, Bool.false_eq_true, if_false]
      cases h2 : headerProfile (trimChars l) with
      | true => simp only [h2, if_true]; exact ih _ _ _ (by simp)
      | false =>
        simp only [h2, Bool.false_eq_true, if_false]
        cases h3 : headerContext (trimChars l) with
        | true => simp only [h3, if_true]; exact ih _ _ _ (by simp)
        | false =>
          simp only [h3, Bool.false_eq_true, if_false]
          cases h4 : headerNext (trimChars l) with
          | true => simp only [h4, if_true]; exact ih _ _ _ (by simp)
          | false =>
            simp only [h4, Bool.false_eq_true, if_false]
            rcases hcur with rfl | rfl | rfl | rfl
            · exact ih _ _ _ (by simp)
            · have hpre : (labelColon "profile").isPrefixOf (trimChars l) = false := by
                cases hp : (labelColon "profile").isPrefixOf (trimChars l) with
                | true => rw [headerProfile_of_labelColon _ hp] at h2; cases h2
                | false => rfl
              simp only [hpre, Bool.false_eq_true, if_false, String.isEmpty_iff]
              simp only [show ¬("profile" = "") from by decide, if_false]
              exact ih _ _ _ (by simp)
            · have hpre : (labelColon "context").isPrefixOf (trimChars l) = false := by
                cases hp : (labelColon "context").isPrefixOf (trimChars l) with
                | true => rw [headerContext_of_labelColon _ hp] at h3; cases h3
                | false => rfl
              simp only [hpre, Bool.false_eq_true, if_false, String.isEmpty_iff]
              simp only [show ¬("context" = "") from by decide, if_false]
              exact ih _ _ _ (by simp)
            · have hpre : (labelColon "next").isPrefixOf (trimChars l) = false := by
                cases hp : (labelColon "next").isPrefixOf (trimChars l) with
                | true => rw [headerNext_of_labelColon _ hp] at h4; cases h4
                | false => rfl
              simp only [hpre, Bool.false_eq_true, if_false, String.isEmpty_iff]
              simp only [show ¬("next" = "") from by decide, if_false]
              exact ih _ _ _ (by simp)

theorem updStr_keys (r : List (String × String)) (k v : String)
    (h : k ∈ r.map Prod.fst) : (updStr r k v).map Prod.fst = r.map Prod.fst := by
  induction r with
  | nil => simp at h
  | cons p rest ih =>
    obtain ⟨k', v'⟩ := p
    by_cases hk : k' = k
    · subst hk; simp [updStr]
    · simp only [updStr, if_neg hk, List.map_cons]
      simp only [List.map_cons, List.mem_cons] at h
      rcases h with h | h
      · exact absurd h.symm hk
      · rw [ih h]

theorem flushSection_keys (cur : Option String) (acc : List (List Char))
    (res : List (String × String))
    (hres : res.map Prod.fst = ["profile", "context", "next"])
    (hcur : cur = none ∨ cur = some "profile" ∨ cur = some "context" ∨ cur = some "next") :
    (flushSection cur acc res).map Prod.fst = ["profile", "context", "next"] := by
  rcases hcur with rfl | rfl | rfl | rfl
  · exact hres
  all_goals
    simp only [flushSection]
    split
    · exact hres
    · split
      · exact hres
      · rw [updStr_keys _ _ _ (by rw [hres]; simp)]
        exact hres

theorem parseLoopSrc_keys : ∀ (ls : List (List Char)) (cur : Option String)
    (acc : List (List Char)) (res : List (String × String)),
    res.map Prod.fst = ["profile", "context", "next"] →
    (cur = none ∨ cur = some "profile" ∨ cur = some "context" ∨ cur = some "next") →
    (parseLoopSrc ls cur acc res).map Prod.fst = ["profile", "context", "next"] := by
  intro ls
  induction ls with
  | nil =>
    intro cur acc res hres hcur
    exact flushSection_keys cur acc res hres hcur
  | cons l ls ih =>
    intro cur acc res hres hcur
    simp only [parseLoopSrc]
    cases h1 : (trimChars l).isEmpty with
    | true => simp only [h1, if_true]; exact ih _ _ _ hres hcur
    | false =>
      simp only [h1, Bool.false_eq_true, if_false]
      cases h2 : headerProfile (trimChars l) with
      | true => simp only [h2, if_true]; exact ih _ _ _ hres (by simp)
      | false =>
        simp only [h2, Bool.false_eq_true, if_false]
        cases h3 : headerContext (trimChars l) with
        | true =>
          simp only [h3, if_true]
          exact ih _ _ _ (flushSection_keys cur acc res hres hcur) (by simp)
        | false =>
          simp only [h3, Bool.false_eq_true, if_false]
          cases h4 : headerNext (trimChars l) with
          | true =>
            simp only [h4, if_true]
            exact ih _ _ _ (flushSection_keys cur acc res hres hcur) (by simp)
          | false =>
            simp only [h4, Bool.false_eq_true, if_false]
            rcases hcur with rfl | rfl | rfl | rfl
            all_goals exact ih _ _ _ hres (by simp)

/-- C8: for every completed transcript produced by the conversation engine,
the roles of adjacent turns differ (`turns[i].role != turns[i+1].role`),
starting from the role that produced the seed utterance. (The engine is
modelled from the spec: `src/models/llm_manager.py` is not among the
sources.) -/
theorem c8_transcript_alternation (client : Client) (now : Nat → String)
    (cfg : ConvConfig) :
    List.Chain' (fun a b => a.role ≠ b.role) (simulate_conversation client now cfg) := by
  apply simulateLoop_alternates
  exact List.chain'_singleton _

/-- C10: for every input string, `_parse_extraction_result` returns a dict
whose keys are exactly `profile`, `context`, `next` (each value a string by
the embedding's type), and never a `raw_text` field. -/
theorem c10_parse_extraction_keys (s : String) :
    (parseExtractionResult s).map Prod.fst = ["profile", "context", "next"] ∧
    "raw_text" ∉ (parseExtractionResult s).map Prod.fst := by
  have h := parseLoopSrc_keys (splitOnNl s.data) none []
    [("profile", ""), ("context", ""), ("next", "")] (by simp) (Or.inl rfl)
  refine ⟨h, ?_⟩
  rw [show parseExtractionResult s = parseLoopSrc (splitOnNl s.data) none []
    [("profile", ""), ("context", ""), ("next", "")] from rfl, h]
  simp

/-- C7 (amended): the heuristic line parser of the profile extractor
recognizes section headers by case-insensitive substring match on
`profile:`/`context:`/`next:` (or `1.`/`2.`/`3.` co-occurring with those
words), discards lines before the first header, and accumulates subsequent
non-header lines, stripped of surrounding whitespace but otherwise verbatim —
in particular a leading `"- "` bullet marker is NOT removed; a `profile:`
header discards (rather than flushes) any pending content of the previous
section. -/
theorem c7_parse_extraction_amended (s : String) :
    parseExtractionResult s = profileSectionsAmended s :=
  parseLoop_amended_eq (splitOnNl s.data) none []
    [("profile", ""), ("context", ""), ("next", "")] (Or.inl rfl)

/-- C7 counterexample: on `"profile:\n- hello"` the source parser keeps the
bullet marker (`"- hello"`), while the claim's parser — which strips a
leading `"- "` — yields `"hello"`; the claim as stated is therefore false. -/
theorem c7_counterexample :
    parseExtractionResult "profile:\n- hello" ≠
      profileSectionsClaimed "profile:\n- hello" ∧
    parseExtractionResult "profile:\n- hello" =
      [("profile", "- hello"), ("context", ""), ("next", "")] ∧
    profileSectionsClaimed "profile:\n- hello" =
      [("profile", "hello"), ("context", ""), ("next", "")] := by
  refine ⟨by decide, by decide, by decide⟩

/- ### Report-shape lemmas for the pipelines -/

theorem updJ_keys_append (r : Report) (k : String) (v : JVal)
    (h : k ∉ r.map Prod.fst) : (updJ r k v).map Prod.fst = r.map Prod.fst ++ [k] := by
  induction r with
  | nil => simp [updJ]
  | cons p rest ih =>
    obtain ⟨k', v'⟩ := p
    simp only [List.map_cons, List.mem_cons] at h
    push_neg at h
    have hne : ¬(k' = k) := fun e => h.1 e.symm
    simp only [updJ, if_neg hne, List.map_cons, List.cons_append]
    rw [ih h.2]

theorem sectionsToReport_keys (r : List (String × String)) :
    (sectionsToReport r).map Prod.fst = r.map Prod.fst := by
  simp [sectionsToReport]

theorem profile_success_keys (t nowIso : String) :
    keysOf (updJ (sectionsToReport (parseExtractionResult t)) "timestamp" (.str nowIso)) =
      ["profile", "context", "next", "timestamp"] := by
  have h := parseLoopSrc_keys (splitOnNl t.data) none []
    [("profile", ""), ("context", ""), ("next", "")] (by simp) (Or.inl rfl)
  have h2 : (sectionsToReport (parseExtractionResult t)).map Prod.fst =
      ["profile", "context", "next"] := by
    rw [sectionsToReport_keys]; exact h
  unfold keysOf
  rw [updJ_keys_append _ _ _ (by rw [h2]; decide), h2]
  rfl

theorem summary_success_keys (t nowIso : String) :
    keysOf (updJ (parseSummaryText t) "timestamp" (.str nowIso)) =
      ["profile", "episode", "next", "timestamp"] := rfl

/-- C2: with no configured GOOGLE_API_KEY (a falsy value: `None` or `""`),
each of the three pipeline entry points returns the fixed error report and
issues no model call at all. -/
theorem c2_missing_credential (googleApiKey : Option String)
    (hkey : pyTruthyStr googleApiKey = false) (client : Client)
    (jparse : String → Option JVal) (jdump : JVal → String)
    (isoFmt : String → Except String String) (nowIso : String)
    (conversation : List Message) (systemPrompt : String) :
    "error" ∈ keysOf missingKeyReport ∧
    analyze_conversation googleApiKey client jparse jdump nowIso conversation =
      (missingKeyReport, []) ∧
    summarize_conversation googleApiKey client nowIso conversation systemPrompt =
      (missingKeyReport, []) ∧
    extract_user_profile googleApiKey client isoFmt nowIso conversation =
      (missingKeyReport, []) := by
  refine ⟨by decide, ?_, ?_, ?_⟩ <;>
    simp [analyze_conversation, summarize_conversation, extract_user_profile, hkey]

/-- C2 witness: a concrete run with no credential. -/
theorem c2_missing_credential_witness :
    pyTruthyStr none = false ∧
    extract_user_profile none (fun _ => .ok "") (fun _ => .ok "") "T" [] =
      (missingKeyReport, []) :=
  ⟨rfl, (c2_missing_credential none rfl (fun _ => .ok "") (fun _ => none)
    (fun _ => "") (fun _ => .ok "") "T" [] "").2.2.2⟩

/-- C3: whatever the client does (success, malformed output, or raised
exception) and whatever the input conversation, every pipeline entry point
returns a report dictionary — each possible result is either an error report
or a report with the pipeline's nominal key list; no exception escapes (the
embedding's entry points are total functions into `Report`). -/
theorem c3_pipelines_total (googleApiKey : Option String) (client : Client)
    (jparse : String → Option JVal) (jdump : JVal → String)
    (isoFmt : String → Except String String) (nowIso : String)
    (conversation : List Message) (systemPrompt : String) :
    ("error" ∈ keysOf (analyze_conversation googleApiKey client jparse jdump nowIso conversation).fst ∨
      keysOf (analyze_conversation googleApiKey client jparse jdump nowIso conversation).fst =
        ["intermediate_analysis", "final_analysis", "meta"]) ∧
    ("error" ∈ keysOf (summarize_conversation googleApiKey client nowIso conversation systemPrompt).fst ∨
      keysOf (summarize_conversation googleApiKey client nowIso conversation systemPrompt).fst =
        ["profile", "episode", "next", "timestamp"]) ∧
    ("error" ∈ keysOf (extract_user_profile googleApiKey client isoFmt nowIso conversation).fst ∨
      keysOf (extract_user_profile googleApiKey client isoFmt nowIso conversation).fst =
        ["profile", "context", "next", "timestamp"]) := by
  refine ⟨?_, ?_, ?_⟩
  · unfold analyze_conversation
    cases hk : pyTruthyStr googleApiKey with
    | false => simp [missingKeyReport, keysOf]
    | true =>
      cases hfmt : formatForAnalysis conversation with
      | error e => simp [hfmt, analyzerErrorReport, keysOf]
      | ok ctext =>
        rcases hs1 : analyzerStage client jparse (intermediateAnalysisPrompt ctext)
          createAnalysisSchema with ⟨r1, tr1⟩
        cases r1 with
        | error e => simp [hfmt, hs1, analyzerErrorReport, keysOf]
        | ok ia =>
          rcases hs2 : analyzerStage client jparse (finalAnalysisPrompt (jdump ia))
            createFinalOutputSchema with ⟨r2, tr2⟩
          cases r2 with
          | error e => simp [hfmt, hs1, hs2, analyzerErrorReport, keysOf]
          | ok fa => simp [hfmt, hs1, hs2, keysOf]
  · unfold summarize_conversation
    cases hk : pyTruthyStr googleApiKey with
    | false => simp [missingKeyReport, keysOf]
    | true =>
      cases h1 : client (summaryPrimaryCall conversation systemPrompt) with
      | ok t => simp [h1, summary_success_keys]
      | exn e =>
        cases h2 : client (summaryFallbackCall conversation systemPrompt) with
        | ok t => simp [h1, h2, summary_success_keys]
        | exn e2 => simp [h1, h2, summarizerErrorReport, keysOf]
  · unfold extract_user_profile
    cases hk : pyTruthyStr googleApiKey with
    | false => simp [missingKeyReport, keysOf]
    | true =>
      cases hfmt : formatForExtraction isoFmt conversation with
      | error e => simp [hfmt, profileErrorReport, keysOf]
      | ok ctext =>
        cases h1 : client (profilePrimaryCall ctext) with
        | ok t => simp [hfmt, h1, profile_success_keys]
        | exn e =>
          cases h2 : client (profileFallbackCall ctext) with
          | ok t => simp [hfmt, h1, h2, profile_success_keys]
          | exn e2 => simp [hfmt, h1, h2, profileErrorReport, keysOf]

/-- C5 (amended): a report is either the bare error report (whose only key is
`error` — error reports carry no timestamp) or it is timestamped: the
summarizer's and the profile extractor's non-error reports carry a top-level
`timestamp`, while the analyzer's non-error report carries its timestamp
nested inside the `meta` object, not at top level. -/
theorem c5_timestamp_amended (googleApiKey : Option String) (client : Client)
    (jparse : String → Option JVal) (jdump : JVal → String)
    (isoFmt : String → Except String String) (nowIso : String)
    (conversation : List Message) (systemPrompt : String) :
    ((∃ msg, (summarize_conversation googleApiKey client nowIso conversation systemPrompt).fst
        = [("error", .str msg)]) ∨
      "timestamp" ∈ keysOf (summarize_conversation googleApiKey client nowIso conversation systemPrompt).fst) ∧
    ((∃ msg, (extract_user_profile googleApiKey client isoFmt nowIso conversation).fst
        = [("error", .str msg)]) ∨
      "timestamp" ∈ keysOf (extract_user_profile googleApiKey client isoFmt nowIso conversation).fst) ∧
    ((∃ msg, (analyze_conversation googleApiKey client jparse jdump nowIso conversation).fst
        = [("error", .str msg)]) ∨
      ("timestamp" ∉ keysOf (analyze_conversation googleApiKey client jparse jdump nowIso conversation).fst ∧
        lookupKey (analyze_conversation googleApiKey client jparse jdump nowIso conversation).fst "meta" =
          some (.obj [("timestamp", .str nowIso), ("model", .str analyzerModelName)]))) := by
  refine ⟨?_, ?_, ?_⟩
  · unfold summarize_conversation
    cases hk : pyTruthyStr googleApiKey with
    | false => exact Or.inl ⟨_, rfl⟩
    | true =>
      cases h1 : client (summaryPrimaryCall conversation systemPrompt) with
      | ok t =>
        refine Or.inr ?_
        simp [h1, summary_success_keys]
      | exn e =>
        cases h2 : client (summaryFallbackCall conversation systemPrompt) with
        | ok t =>
          refine Or.inr ?_
          simp [h1, h2, summary_success_keys]
        | exn e2 =>
          refine Or.inl ⟨"会話のまとめ生成中にエラーが発生しました: " ++ e2, ?_⟩
          simp [h1, h2, summarizerErrorReport]
  · unfold extract_user_profile
    cases hk : pyTruthyStr googleApiKey with
    | false => exact Or.inl ⟨_, rfl⟩
    | true =>
      cases hfmt : formatForExtraction isoFmt conversation with
      | error e =>
        refine Or.inl ⟨"プロファイル抽出中にエラーが発生しました: " ++ e, ?_⟩
        simp [hfmt, profileErrorReport]
      | ok ctext =>
        cases h1 : client (profilePrimaryCall ctext) with
        | ok t =>
          refine Or.inr ?_
          simp [hfmt, h1, profile_success_keys]
        | exn e =>
          cases h2 : client (profileFallbackCall ctext) with
          | ok t =>
            refine Or.inr ?_
            simp [hfmt, h1, h2, profile_success_keys]
          | exn e2 =>
            refine Or.inl ⟨"プロファイル抽出中にエラーが発生しました: " ++ e2, ?_⟩
            simp [hfmt, h1, h2, profileErrorReport]
  · unfold analyze_conversation
    cases hk : pyTruthyStr googleApiKey with
    | false => exact Or.inl ⟨_, rfl⟩
    | true =>
      cases hfmt : formatForAnalysis conversation with
      | error e =>
        refine Or.inl ⟨"会話分析中にエラーが発生しました: " ++ e, ?_⟩
        simp [hfmt, analyzerErrorReport]
      | ok ctext =>
        rcases hs1 : analyzerStage client jparse (intermediateAnalysisPrompt ctext)
          createAnalysisSchema with ⟨r1, tr1⟩
        cases r1 with
        | error e =>
          refine Or.inl ⟨"会話分析中にエラーが発生しました: " ++ e, ?_⟩
          simp [hfmt, hs1, analyzerErrorReport]
        | ok ia =>
          rcases hs2 : analyzerStage client jparse (finalAnalysisPrompt (jdump ia))
            createFinalOutputSchema with ⟨r2, tr2⟩
          cases r2 with
          | error e =>
            refine Or.inl ⟨"会話分析中にエラーが発生しました: " ++ e, ?_⟩
            simp [hfmt, hs1, hs2, analyzerErrorReport]
          | ok fa =>
            refine Or.inr ⟨?_, ?_⟩
            · simp [hfmt, hs1, hs2, keysOf]
            · simp [hfmt, hs1, hs2, lookupKey]

/-- C5 counterexample: the claim "every report contains a top-level
`timestamp`" fails on the code: the missing-credential error report of the
profile extractor has no `timestamp` key at all, and even the analyzer's
successful report keeps its timestamp inside `meta` rather than at top
level. -/
theorem c5_counterexample :
    "timestamp" ∉ keysOf (extract_user_profile none (fun _ => .ok "")
      (fun _ => .ok "") "T" []).fst ∧
    "timestamp" ∉ keysOf (analyze_conversation (some "k") (fun _ => .ok "x")
      (fun _ => none) (fun _ => "") "T" []).fst := by
  refine ⟨by decide, by decide⟩

/-- C6: if the analyzer's stage-1 call raises on both the primary and the
fallback model, `analyze_conversation` returns the error report built from
the fallback's exception, and the trace shows exactly the two stage-1 calls —
the stage-2 (final analysis) call is never issued. -/
theorem c6_stage1_double_failure (googleApiKey : Option String)
    (hk : pyTruthyStr googleApiKey = true) (client : Client)
    (jparse : String → Option JVal) (jdump : JVal → String) (nowIso : String)
    (conversation : List Message) (ctext : String)
    (hfmt : formatForAnalysis conversation = .ok ctext) (e1 e2 : String)
    (h1 : client (analyzerStage1Primary ctext) = .exn e1)
    (h2 : client (analyzerStage1Fallback ctext) = .exn e2) :
    (analyze_conversation googleApiKey client jparse jdump nowIso conversation).fst =
      analyzerErrorReport e2 ∧
    "error" ∈ keysOf (analyze_conversation googleApiKey client jparse jdump nowIso conversation).fst ∧
    (analyze_conversation googleApiKey client jparse jdump nowIso conversation).snd =
      [analyzerStage1Primary ctext, analyzerStage1Fallback ctext] := by
  simp only [analyzerStage1Primary, analyzerStage1Fallback] at h1 h2
  unfold analyze_conversation analyzerStage
  simp [hk, hfmt, h1, h2, analyzerStage1Primary, analyzerStage1Fallback,
    analyzerErrorReport, keysOf]

/-- C6 witness: a concrete client that raises on every call. -/
theorem c6_stage1_double_failure_witness :
    pyTruthyStr (some "k") = true ∧
    formatForAnalysis [] = .ok "# 会話履歴\n\n" ∧
    (fun _ => GenResult.exn "boom" : Client) (analyzerStage1Primary "# 会話履歴\n\n") =
      .exn "boom" ∧
    (analyze_conversation (some "k") (fun _ => .exn "boom") (fun _ => none)
      (fun _ => "") "T" []).fst = analyzerErrorReport "boom" ∧
    (analyze_conversation (some "k") (fun _ => .exn "boom") (fun _ => none)
      (fun _ => "") "T" []).snd =
      [analyzerStage1Primary "# 会話履歴\n\n", analyzerStage1Fallback "# 会話履歴\n\n"] :=
  ⟨rfl, rfl, rfl,
    (c6_stage1_double_failure (some "k") rfl (fun _ => .exn "boom") (fun _ => none)
      (fun _ => "") "T" [] "# 会話履歴\n\n" rfl "boom" "boom" rfl rfl).1,
    (c6_stage1_double_failure (some "k") rfl (fun _ => .exn "boom") (fun _ => none)
      (fun _ => "") "T" [] "# 会話履歴\n\n" rfl "boom" "boom" rfl rfl).2.2⟩

/-- C4: when a schema-constrained model call returns successfully but the
text is not valid JSON (`jparse` yields `none`), the analyzer stores
`{"raw_text": <unparsed text>}` for that stage — no field of the nominal
stage schema is present in the stage record and no error is raised; the
summarizer and the profile extractor never request a schema at all (every
call in their traces carries `schema = none`). -/
theorem c4_raw_text_degradation (googleApiKey : Option String)
    (hk : pyTruthyStr googleApiKey = true) (client : Client)
    (jparse : String → Option JVal) (jdump : JVal → String)
    (isoFmt : String → Except String String) (nowIso : String)
    (conversation : List Message) (systemPrompt : String) (ctext : String)
    (hfmt : formatForAnalysis conversation = .ok ctext)
    (t1 : String) (h1 : client (analyzerStage1Primary ctext) = .ok t1)
    (hp1 : jparse t1 = none) (t2 : String)
    (h2 : client (analyzerStage2Primary (jdump (.obj [("raw_text", .str t1)]))) = .ok t2)
    (hp2 : jparse t2 = none) :
    lookupKey (analyze_conversation googleApiKey client jparse jdump nowIso conversation).fst
      "intermediate_analysis" = some (.obj [("raw_text", .str t1)]) ∧
    lookupKey (analyze_conversation googleApiKey client jparse jdump nowIso conversation).fst
      "final_analysis" = some (.obj [("raw_text", .str t2)]) ∧
    "error" ∉ keysOf (analyze_conversation googleApiKey client jparse jdump nowIso conversation).fst ∧
    (∀ c ∈ (summarize_conversation googleApiKey client nowIso conversation systemPrompt).snd,
      c.schema = none) ∧
    (∀ c ∈ (extract_user_profile googleApiKey client isoFmt nowIso conversation).snd,
      c.schema = none) := by
  simp only [analyzerStage1Primary] at h1
  simp only [analyzerStage2Primary] at h2
  refine ⟨?_, ?_, ?_, ?_, ?_⟩
  · unfold analyze_conversation analyzerStage
    simp [hk, hfmt, h1, hp1, parseOrRaw, h2, hp2, lookupKey]
  · unfold analyze_conversation analyzerStage
    simp [hk, hfmt, h1, hp1, parseOrRaw, h2, hp2, lookupKey]
  · unfold analyze_conversation analyzerStage
    simp [hk, hfmt, h1, hp1, parseOrRaw, h2, hp2, keysOf]
  · cases hs : client (summaryPrimaryCall conversation systemPrompt) with
    | ok t =>
      intro c hc
      simp [summarize_conversation, hk, hs] at hc
      subst hc; rfl
    | exn e =>
      cases hs2 : client (summaryFallbackCall conversation systemPrompt) with
      | ok t =>
        intro c hc
        simp [summarize_conversation, hk, hs, hs2] at hc
        rcases hc with rfl | rfl <;> rfl
      | exn e2 =>
        intro c hc
        simp [summarize_conversation, hk, hs, hs2] at hc
        rcases hc with rfl | rfl <;> rfl
  · cases hf : formatForExtraction isoFmt conversation with
    | error e => intro c hc; simp [extract_user_profile, hk, hf] at hc
    | ok ptext =>
      cases hs : client (profilePrimaryCall ptext) with
      | ok t =>
        intro c hc
        simp [extract_user_profile, hk, hf, hs] at hc
        subst hc; rfl
      | exn e =>
        cases hs2 : client (profileFallbackCall ptext) with
        | ok t =>
          intro c hc
          simp [extract_user_profile, hk, hf, hs, hs2] at hc
          rcases hc with rfl | rfl <;> rfl
        | exn e2 =>
          intro c hc
          simp [extract_user_profile, hk, hf, hs, hs2] at hc
          rcases hc with rfl | rfl <;> rfl

/-- C4 witness: a client that always succeeds with non-JSON text, a `jparse`
oracle that rejects everything. -/
theorem c4_raw_text_degradation_witness :
    pyTruthyStr (some "k") = true ∧
    formatForAnalysis [] = .ok "# 会話履歴\n\n" ∧
    (fun _ => GenResult.ok "A" : Client) (analyzerStage1Primary "# 会話履歴\n\n") = .ok "A" ∧
    (fun _ => (none : Option JVal)) "A" = none ∧
    lookupKey (analyze_conversation (some "k") (fun _ => .ok "A") (fun _ => none)
      (fun _ => "D") "T" []).fst "intermediate_analysis" =
      some (.obj [("raw_text", .str "A")]) ∧
    "error" ∉ keysOf (analyze_conversation (some "k") (fun _ => .ok "A") (fun _ => none)
      (fun _ => "D") "T" []).fst :=
  ⟨rfl, rfl, rfl, rfl,
    (c4_raw_text_degradation (some "k") rfl (fun _ => .ok "A") (fun _ => none)
      (fun _ => "D") (fun _ => .ok "") "T" [] "" "# 会話履歴\n\n" rfl "A" rfl rfl "A" rfl rfl).1,
    (c4_raw_text_degradation (some "k") rfl (fun _ => .ok "A") (fun _ => none)
      (fun _ => "D") (fun _ => .ok "") "T" [] "" "# 会話履歴\n\n" rfl "A" rfl rfl "A" rfl rfl).2.2.1⟩

/-- C1: inside every pipeline, a primary-model failure triggers exactly one
retry: the designated fallback model is called with the same prompt (and the
same schema where one is used), the trace contains exactly the primary call
followed by the fallback call for that stage and nothing more for it; only
when the fallback also raises does the pipeline return an error report, and
no further retry ever happens. -/
theorem c1_fallback_once (googleApiKey : Option String)
    (hk : pyTruthyStr googleApiKey = true) (client : Client)
    (jparse : String → Option JVal) (jdump : JVal → String)
    (isoFmt : String → Except String String) (nowIso : String)
    (conversation : List Message) (systemPrompt : String) :
    (∀ ctext, formatForExtraction isoFmt conversation = .ok ctext →
      ∀ e, client (profilePrimaryCall ctext) = .exn e →
        (profileFallbackCall ctext).contents = (profilePrimaryCall ctext).contents ∧
        (profileFallbackCall ctext).schema = (profilePrimaryCall ctext).schema ∧
        (profileFallbackCall ctext).model = profileFallbackModelName ∧
        (extract_user_profile googleApiKey client isoFmt nowIso conversation).snd =
          [profilePrimaryCall ctext, profileFallbackCall ctext] ∧
        (∀ t, client (profileFallbackCall ctext) = .ok t →
          "error" ∉ keysOf (extract_user_profile googleApiKey client isoFmt nowIso conversation).fst) ∧
        (∀ e2, client (profileFallbackCall ctext) = .exn e2 →
          (extract_user_profile googleApiKey client isoFmt nowIso conversation).fst =
            profileErrorReport e2)) ∧
    (∀ e, client (summaryPrimaryCall conversation systemPrompt) = .exn e →
      (summaryFallbackCall conversation systemPrompt).contents =
        (summaryPrimaryCall conversation systemPrompt).contents ∧
      (summaryFallbackCall conversation systemPrompt).schema =
        (summaryPrimaryCall conversation systemPrompt).schema ∧
      (summaryFallbackCall conversation systemPrompt).model = summarizerFallbackModelName ∧
      (summarize_conversation googleApiKey client nowIso conversation systemPrompt).snd =
        [summaryPrimaryCall conversation systemPrompt,
         summaryFallbackCall conversation systemPrompt] ∧
      (∀ t, client (summaryFallbackCall conversation systemPrompt) = .ok t →
        "error" ∉ keysOf (summarize_conversation googleApiKey client nowIso conversation systemPrompt).fst) ∧
      (∀ e2, client (summaryFallbackCall conversation systemPrompt) = .exn e2 →
        (summarize_conversation googleApiKey client nowIso conversation systemPrompt).fst =
          summarizerErrorReport e2)) ∧
    (∀ ctext, formatForAnalysis conversation = .ok ctext →
      ∀ e, client (analyzerStage1Primary ctext) = .exn e →
        (analyzerStage1Fallback ctext).contents = (analyzerStage1Primary ctext).contents ∧
        (analyzerStage1Fallback ctext).schema = (analyzerStage1Primary ctext).schema ∧
        (analyzerStage1Fallback ctext).model = analyzerFallbackModelName ∧
        (analyze_conversation googleApiKey client jparse jdump nowIso conversation).snd.take 2 =
          [analyzerStage1Primary ctext, analyzerStage1Fallback ctext] ∧
        (∀ e2, client (analyzerStage1Fallback ctext) = .exn e2 →
          (analyze_conversation googleApiKey client jparse jdump nowIso conversation).fst =
            analyzerErrorReport e2 ∧
          (analyze_conversation googleApiKey client jparse jdump nowIso conversation).snd =
            [analyzerStage1Primary ctext, analyzerStage1Fallback ctext])) ∧
    (∀ ctext, formatForAnalysis conversation = .ok ctext →
      ∀ t1, client (analyzerStage1Primary ctext) = .ok t1 →
        ∀ e, client (analyzerStage2Primary (jdump (parseOrRaw jparse t1))) = .exn e →
          (analyzerStage2Fallback (jdump (parseOrRaw jparse t1))).contents =
            (analyzerStage2Primary (jdump (parseOrRaw jparse t1))).contents ∧
          (analyzerStage2Fallback (jdump (parseOrRaw jparse t1))).schema =
            (analyzerStage2Primary (jdump (parseOrRaw jparse t1))).schema ∧
          (analyzerStage2Fallback (jdump (parseOrRaw jparse t1))).model =
            analyzerFallbackModelName ∧
          (analyze_conversation googleApiKey client jparse jdump nowIso conversation).snd =
            [analyzerStage1Primary ctext,
             analyzerStage2Primary (jdump (parseOrRaw jparse t1)),
             analyzerStage2Fallback (jdump (parseOrRaw jparse t1))] ∧
          (∀ t, client (analyzerStage2Fallback (jdump (parseOrRaw jparse t1))) = .ok t →
            "error" ∉ keysOf (analyze_conversation googleApiKey client jparse jdump nowIso conversation).fst) ∧
          (∀ e2, client (analyzerStage2Fallback (jdump (parseOrRaw jparse t1))) = .exn e2 →
            (analyze_conversation googleApiKey client jparse jdump nowIso conversation).fst =
              analyzerErrorReport e2)) := by
  refine ⟨?_, ?_, ?_, ?_⟩
  · intro ctext hfmt e h1
    refine ⟨rfl, rfl, rfl, ?_, ?_, ?_⟩
    · cases h2 : client (profileFallbackCall ctext) with
      | ok t => simp [extract_user_profile, hk, hfmt, h1, h2]
      | exn e2 => simp [extract_user_profile, hk, hfmt, h1, h2]
    · intro t h2
      have h3 : keysOf (extract_user_profile googleApiKey client isoFmt nowIso conversation).fst
          = ["profile", "context", "next", "timestamp"] := by
        simp [extract_user_profile, hk, hfmt, h1, h2, profile_success_keys]
      rw [h3]; decide
    · intro e2 h2
      simp [extract_user_profile, hk, hfmt, h1, h2]
  · intro e h1
    refine ⟨rfl, rfl, rfl, ?_, ?_, ?_⟩
    · cases h2 : client (summaryFallbackCall conversation systemPrompt) with
      | ok t => simp [summarize_conversation, hk, h1, h2]
      | exn e2 => simp [summarize_conversation, hk, h1, h2]
    · intro t h2
      have h3 : keysOf (summarize_conversation googleApiKey client nowIso conversation systemPrompt).fst
          = ["profile", "episode", "next", "timestamp"] := by
        simp [summarize_conversation, hk, h1, h2, summary_success_keys]
      rw [h3]; decide
    · intro e2 h2
      simp [summarize_conversation, hk, h1, h2]
  · intro ctext hfmt e h1
    have h1' := h1
    simp only [analyzerStage1Primary] at h1'
    refine ⟨rfl, rfl, rfl, ?_, ?_⟩
    · cases h2 : client (analyzerStage1Fallback ctext) with
      | exn e2 =>
        have h2' := h2
        simp only [analyzerStage1Fallback] at h2'
        simp [analyze_conversation, analyzerStage, hk, hfmt, h1', h2',
          analyzerStage1Primary, analyzerStage1Fallback]
      | ok t =>
        have h2' := h2
        simp only [analyzerStage1Fallback] at h2'
        have hstage1 : analyzerStage client jparse (intermediateAnalysisPrompt ctext)
            createAnalysisSchema =
            (.ok (parseOrRaw jparse t),
             [analyzerStage1Primary ctext, analyzerStage1Fallback ctext]) := by
          simp [analyzerStage, h1', h2', analyzerStage1Primary, analyzerStage1Fallback]
        rcases hs2 : analyzerStage client jparse
            (finalAnalysisPrompt (jdump (parseOrRaw jparse t))) createFinalOutputSchema
          with ⟨r2, tr2⟩
        have htake : ∀ l : List GenCall,
            (([analyzerStage1Primary ctext, analyzerStage1Fallback ctext] ++ l).take 2) =
            [analyzerStage1Primary ctext, analyzerStage1Fallback ctext] := by
          intro l
          rw [show (2 : Nat) =
            ([analyzerStage1Primary ctext, analyzerStage1Fallback ctext] : List GenCall).length
            from rfl, List.take_left]
        cases r2 with
        | error e3 =>
          simp only [analyze_conversation, hk, eq_self_iff_true, if_true, hfmt, hstage1, hs2]
          exact htake tr2
        | ok fa =>
          simp only [analyze_conversation, hk, eq_self_iff_true, if_true, hfmt, hstage1, hs2]
          exact htake tr2
    · intro e2 h2
      have h2' := h2
      simp only [analyzerStage1Fallback] at h2'
      simp [analyze_conversation, analyzerStage, hk, hfmt, h1', h2',
        analyzerStage1Primary, analyzerStage1Fallback]
  · intro ctext hfmt t1 h1 e h2
    have h1' := h1
    simp only [analyzerStage1Primary] at h1'
    have h2' := h2
    simp only [analyzerStage2Primary] at h2'
    refine ⟨rfl, rfl, rfl, ?_, ?_, ?_⟩
    · cases h3 : client (analyzerStage2Fallback (jdump (parseOrRaw jparse t1))) with
      | ok t =>
        have h3' := h3
        simp only [analyzerStage2Fallback] at h3'
        simp [analyze_conversation, analyzerStage, hk, hfmt, h1', h2', h3',
          analyzerStage1Primary, analyzerStage2Primary, analyzerStage2Fallback]
      | exn e3 =>
        have h3' := h3
        simp only [analyzerStage2Fallback] at h3'
        simp [analyze_conversation, analyzerStage, hk, hfmt, h1', h2', h3',
          analyzerStage1Primary, analyzerStage2Primary, analyzerStage2Fallback]
    · intro t h3
      have h3' := h3
      simp only [analyzerStage2Fallback] at h3'
      have h4 : keysOf (analyze_conversation googleApiKey client jparse jdump nowIso conversation).fst
          = ["intermediate_analysis", "final_analysis", "meta"] := by
        simp [analyze_conversation, analyzerStage, hk, hfmt, h1', h2', h3', keysOf]
      rw [h4]; decide
    · intro e2 h3
      have h3' := h3
      simp only [analyzerStage2Fallback] at h3'
      simp [analyze_conversation, analyzerStage, hk, hfmt, h1', h2', h3']

/-- Witness client: the `gemini-2.0-flash` primary fails, everything else
succeeds. -/
def clientW1 : Client :=
  fun c => if c.model = "gemini-2.0-flash" then .exn "p" else .ok "A"

/-- Witness client: the `gemini-2.0-flash-lite` primary fails, everything
else succeeds. -/
def clientW2 : Client :=
  fun c => if c.model = "gemini-2.0-flash-lite" then .exn "p" else .ok "A"

/-- Witness client: every call raises. -/
def clientW3 : Client := fun _ => .exn "q"

/-- Witness client: the fallback model succeeds, the stage-2 prompt (which
contains `中間分析結果`) raises on the primary, anything else succeeds. -/
def clientW4 : Client :=
  fun c =>
    if c.model = "gemini-1.5-pro" then .ok "B"
    else if containsSub c.contents.data "中間分析結果".data then .exn "s2"
    else .ok "T1"

/-- Witness client: every stage-2 call raises, stage-1 calls succeed. -/
def clientW5 : Client :=
  fun c => if containsSub c.contents.data "中間分析結果".data then .exn "s2" else .ok "T1"

/-- C1 witness: concrete fallback scenarios for each pipeline and each
analyzer stage. -/
theorem c1_fallback_once_witness :
    clientW1 (profilePrimaryCall "# 会話履歴\n\n") = .exn "p" ∧
    (extract_user_profile (some "k") clientW1 (fun _ => .ok "") "T" []).snd =
      [profilePrimaryCall "# 会話履歴\n\n", profileFallbackCall "# 会話履歴\n\n"] ∧
    "error" ∉ keysOf (extract_user_profile (some "k") clientW1 (fun _ => .ok "") "T" []).fst ∧
    (extract_user_profile (some "k") clientW3 (fun _ => .ok "") "T" []).fst =
      profileErrorReport "q" ∧
    "error" ∉ keysOf (summarize_conversation (some "k") clientW2 "T" [] "S").fst ∧
    (summarize_conversation (some "k") clientW2 "T" [] "S").snd =
      [summaryPrimaryCall [] "S", summaryFallbackCall [] "S"] ∧
    (summarize_conversation (some "k") clientW3 "T" [] "S").fst =
      summarizerErrorReport "q" ∧
    (analyze_conversation (some "k") clientW3 (fun _ => none) (fun _ => "D") "T" []).fst =
      analyzerErrorReport "q" ∧
    (analyze_conversation (some "k") clientW3 (fun _ => none) (fun _ => "D") "T" []).snd =
      [analyzerStage1Primary "# 会話履歴\n\n", analyzerStage1Fallback "# 会話履歴\n\n"] ∧
    (analyze_conversation (some "k") clientW4 (fun _ => none) (fun _ => "D") "T" []).snd =
      [analyzerStage1Primary "# 会話履歴\n\n", analyzerStage2Primary "D",
       analyzerStage2Fallback "D"] ∧
    "error" ∉ keysOf (analyze_conversation (some "k") clientW4 (fun _ => none)
      (fun _ => "D") "T" []).fst ∧
    (analyze_conversation (some "k") clientW5 (fun _ => none) (fun _ => "D") "T" []).fst =
      analyzerErrorReport "s2" :=
  ⟨rfl,
   ((c1_fallback_once (some "k") rfl clientW1 (fun _ => none) (fun _ => "D")
      (fun _ => .ok "") "T" [] "S").1 "# 会話履歴\n\n" rfl "p" rfl).2.2.2.1,
   ((c1_fallback_once (some "k") rfl clientW1 (fun _ => none) (fun _ => "D")
      (fun _ => .ok "") "T" [] "S").1 "# 会話履歴\n\n" rfl "p" rfl).2.2.2.2.1 "A" rfl,
   ((c1_fallback_once (some "k") rfl clientW3 (fun _ => none) (fun _ => "D")
      (fun _ => .ok "") "T" [] "S").1 "# 会話履歴\n\n" rfl "q" rfl).2.2.2.2.2 "q" rfl,
   ((c1_fallback_once (some "k") rfl clientW2 (fun _ => none) (fun _ => "D")
      (fun _ => .ok "") "T" [] "S").2.1 "p" rfl).2.2.2.2.1 "A" rfl,
   ((c1_fallback_once (some "k") rfl clientW2 (fun _ => none) (fun _ => "D")
      (fun _ => .ok "") "T" [] "S").2.1 "p" rfl).2.2.2.1,
   ((c1_fallback_once (some "k") rfl clientW3 (fun _ => none) (fun _ => "D")
      (fun _ => .ok "") "T" [] "S").2.1 "q" rfl).2.2.2.2.2 "q" rfl,
   (((c1_fallback_once (some "k") rfl clientW3 (fun _ => none) (fun _ => "D")
      (fun _ => .ok "") "T" [] "S").2.2.1 "# 会話履歴\n\n" rfl "q" rfl).2.2.2.2 "q" rfl).1,
   (((c1_fallback_once (some "k") rfl clientW3 (fun _ => none) (fun _ => "D")
      (fun _ => .ok "") "T" [] "S").2.2.1 "# 会話履歴\n\n" rfl "q" rfl).2.2.2.2 "q" rfl).2,
   ((c1_fallback_once (some "k") rfl clientW4 (fun _ => none) (fun _ => "D")
      (fun _ => .ok "") "T" [] "S").2.2.2 "# 会話履歴\n\n" rfl "T1" rfl "s2" rfl).2.2.2.1,
   ((c1_fallback_once (some "k") rfl clientW4 (fun _ => none) (fun _ => "D")
      (fun _ => .ok "") "T" [] "S").2.2.2 "# 会話履歴\n\n" rfl "T1" rfl "s2" rfl).2.2.2.2.1 "B" rfl,
   ((c1_fallback_once (some "k") rfl clientW5 (fun _ => none) (fun _ => "D")
      (fun _ => .ok "") "T" [] "S").2.2.2 "# 会話履歴\n\n" rfl "T1" rfl "s2" rfl).2.2.2.2.2 "s2" rfl⟩
